import Mathlib

/-!
Verification development for the Notepad4 lexers `LexCSharp.cxx` (LangC) and
`LexVB.cxx` (LangB) and their folders.  The lexers are embedded shallowly:
one Lean step corresponds to one entry of the C++ `while (sc.More())` loop
body (a C++ `continue` ends the step early; otherwise the step runs the
switch arm, the default-state block, the bottom-of-loop bookkeeping and the
final `sc.Forward()`).  Documents are byte lists; end-of-line is the byte 10,
matching the development's use of LF-only documents.  Helper routines of the
repository that live outside the two lexer files (character classifiers,
StyleContext, LexAccessor helpers, keyword lists, style constants) are
modelled from the spec, as marked on each definition.
-/

namespace Notepad4

/-! ### Character classifiers (spec section 2, "Character Classifier") -/

/-- Modelled from the spec: end-of-line bytes (CR, LF). -/
def IsEOLChar (c : Nat) : Bool := c == 13 || c == 10

/-- Modelled from the spec: whitespace bytes (space, tab, CR, LF). -/
def isspacechar (c : Nat) : Bool := c == 32 || c == 9 || c == 13 || c == 10

/-- Modelled from the spec: space or tab. -/
def IsASpaceOrTab (c : Nat) : Bool := c == 32 || c == 9

/-- Modelled from the spec: decimal digit. -/
def IsADigit (c : Nat) : Bool := 48 ≤ c && c ≤ 57

/-- Modelled from the spec: hexadecimal digit. -/
def IsHexDigit (c : Nat) : Bool := IsADigit c || (97 ≤ c && c ≤ 102) || (65 ≤ c && c ≤ 70)

/-- Modelled from the spec: upper-case ASCII letter. -/
def IsUpperCase (c : Nat) : Bool := 65 ≤ c && c ≤ 90

/-- Modelled from the spec: lower-case ASCII letter. -/
def IsLowerCase (c : Nat) : Bool := 97 ≤ c && c ≤ 122

/-- Modelled from the spec: ASCII letter. -/
def IsAlpha (c : Nat) : Bool := IsUpperCase c || IsLowerCase c

/-- Modelled from the spec: ASCII letter (alias used by LexVB). -/
def IsUpperOrLowerCase (c : Nat) : Bool := IsAlpha c

/-- Modelled from the spec: letter or digit. -/
def IsAlphaNumeric (c : Nat) : Bool := IsADigit c || IsAlpha c

/-- Modelled from the spec: identifier-continue byte (letter, digit, underscore). -/
def IsIdentifierChar (c : Nat) : Bool := IsAlphaNumeric c || c == 95

/-- Modelled from the spec: identifier-start byte (letter, underscore). -/
def IsIdentifierStart (c : Nat) : Bool := IsAlpha c || c == 95

/-- Modelled from the spec: identifier-continue with Unicode awareness
(bytes at and above 128 continue identifiers). -/
def IsIdentifierCharEx (c : Nat) : Bool := IsIdentifierChar c || 128 ≤ c

/-- Modelled from the spec: identifier-start with Unicode awareness. -/
def IsIdentifierStartEx (c : Nat) : Bool := IsIdentifierStart c || 128 ≤ c

/-- Modelled from the spec: graphic (printable, non-space) ASCII byte. -/
def IsAGraphic (c : Nat) : Bool := 32 < c && c < 127

/-- Modelled from the spec: ASCII lower-casing by setting bit 5. -/
def UnsafeLower (c : Nat) : Nat := c ||| 32

/-- Modelled from the spec: number start, "a digit or `.` followed by a digit". -/
def IsNumberStart (c cNext : Nat) : Bool := IsADigit c || (c == 46 && IsADigit cNext)

/-- Modelled from the spec: number-continue test
"accepts hex/octal/binary prefixes, exponents, digit separators, and
numeric-type suffixes"; identifier-like bytes, dots, quotes used as digit
separators, and exponent signs after an exponent letter continue a number. -/
def IsDecimalNumber (cPrev c cNext : Nat) : Bool :=
  IsIdentifierChar c || c == 46
    || ((c == 43 || c == 45) && (UnsafeLower cPrev == 101 || UnsafeLower cPrev == 112)
          && IsADigit cNext)

/-- Modelled from the spec: byte before a jump label
(start of statement: nothing, `;`, braces, or another label). -/
def IsJumpLabelPrevChar (c : Nat) : Bool :=
  c == 0 || c == 59 || c == 123 || c == 125 || c == 58

/-- Modelled from the spec: interface-name heuristic,
"first char `I` followed by uppercase". -/
def IsInterfaceName (c0 c1 : Nat) : Bool := c0 == 73 && IsUpperCase c1

/-! ### Documents and byte access (spec section 6.1) -/

/-- A document is a list of bytes. -/
abbrev Doc := List Nat

/-- Modelled from the spec: byte access; "bytes past end-of-document read as 0". -/
def byteAt (doc : Doc) (p : Nat) : Nat := doc.getD p 0

/-- Start position of the line following the line that contains `p`
(the document length if `p` is on the last line). -/
def nextLineStart (doc : Doc) (p : Nat) : Nat :=
  match (doc.drop p).findIdx? (fun c => c == 10) with
  | some i => p + i + 1
  | none => doc.length

/-- Zero-based index of the line containing position `p`. -/
def lineOf (doc : Doc) (p : Nat) : Nat :=
  ((doc.take p).filter (fun c => c == 10)).length

/-- Start position of line `ln` (`doc.length` when past the last line). -/
def lineStartPos (doc : Doc) : Nat → Nat
  | 0 => 0
  | n + 1 => nextLineStart doc (lineStartPos doc n)

/-- True when position `p` is the first position of its line. -/
def atLineStartPos (doc : Doc) (p : Nat) : Bool :=
  p == 0 || byteAt doc (p - 1) == 10

/-- True when position `p` is the last position of its line
(an LF byte, or the last byte of a document without trailing LF). -/
def atLineEndPos (doc : Doc) (p : Nat) : Bool :=
  byteAt doc p == 10 || doc.length ≤ p + 1

/-! ### Style runs (the StyleContext write model) -/

/-- A closed style run: bytes in `[start, stop)` carry `style`. -/
structure StyleRun where
  start : Nat
  stop : Nat
  style : Nat
deriving DecidableEq

/-- The styler cursor: current position, running style, start of the
pending style run, and the list of closed runs (most recent first).
Modelled from the spec's Style Context component. -/
structure Sc where
  pos : Nat
  state : Nat
  runStart : Nat
  runs : List StyleRun
deriving DecidableEq

/-- Close the pending run (no run is written for an empty span). -/
def scFlush (sc : Sc) : List StyleRun :=
  if sc.runStart < sc.pos then ⟨sc.runStart, sc.pos, sc.state⟩ :: sc.runs else sc.runs

/-- `sc.SetState(s)`: write the pending run, start a new one in style `s`. -/
def scSetState (s : Nat) (sc : Sc) : Sc :=
  { sc with runs := scFlush sc, runStart := sc.pos, state := s }

/-- `sc.ChangeState(s)`: retag the pending run without closing it. -/
def scChangeState (s : Nat) (sc : Sc) : Sc := { sc with state := s }

/-- `sc.Forward()`. -/
def scForward (sc : Sc) : Sc := { sc with pos := sc.pos + 1 }

/-- `sc.Forward(n)`. -/
def scForwardN (n : Nat) (sc : Sc) : Sc := { sc with pos := sc.pos + n }

/-- `sc.Advance(n)` (a plain cursor move; `n` may be negative). -/
def scAdvance (n : Int) (sc : Sc) : Sc := { sc with pos := ((sc.pos : Int) + n).toNat }

/-- `sc.ForwardSetState(s)`. -/
def scForwardSetState (s : Nat) (sc : Sc) : Sc := scSetState s (scForward sc)

/-- `sc.Rewind()`. -/
def scRewind (sc : Sc) : Sc := { sc with pos := sc.pos - 1 }

/-- `sc.Complete()`: close the final run. -/
def scComplete (sc : Sc) : Sc := { sc with runs := scFlush sc, runStart := sc.pos }

/-- Style lookup over closed runs (0, the default style, when unstyled). -/
def styleAt (runs : List StyleRun) (p : Nat) : Nat :=
  match runs.find? (fun r => r.start ≤ p && p < r.stop) with
  | some r => r.style
  | none => 0

/-- The bytes of the pending token, `sc.GetCurrent` (truncated like the
fixed-size C buffer of `maxLen` bytes). -/
def scCurrent (doc : Doc) (maxLen : Nat) (sc : Sc) : List Nat :=
  ((doc.drop sc.runStart).take (sc.pos - sc.runStart)).take (maxLen - 1)

/-- `sc.LengthCurrent()`. -/
def scLengthCurrent (sc : Sc) : Nat := sc.pos - sc.runStart

/-- `sc.Match(a, b)`. -/
def scMatch2 (doc : Doc) (a b : Nat) (sc : Sc) : Bool :=
  byteAt doc sc.pos == a && byteAt doc (sc.pos + 1) == b

/-! ### LexAccessor helpers shared by both lexers -/

/-- Modelled from the spec: first non-whitespace byte in `[p, stop)`,
0 when there is none. -/
def LexGetNextChar (doc : Doc) (p stop : Nat) : Nat :=
  match (doc.drop p).take (stop - p) |>.find? (fun c => !isspacechar c) with
  | some c => c
  | none => 0

/-- `sc.GetDocNextChar(ignoreCurrent)`: next non-whitespace byte in the document. -/
def scGetDocNextChar (doc : Doc) (ignoreCurrent : Bool) (sc : Sc) : Nat :=
  LexGetNextChar doc (sc.pos + if ignoreCurrent then 1 else 0) doc.length

/-- `sc.GetLineNextChar(ignoreCurrent)`: next non-whitespace byte on the line. -/
def scGetLineNextChar (doc : Doc) (ignoreCurrent : Bool) (sc : Sc) : Nat :=
  LexGetNextChar doc (sc.pos + if ignoreCurrent then 1 else 0) (nextLineStart doc sc.pos)

/-- Modelled from the spec: length of the run of byte `c` starting at `p`
(the byte at `p` is counted; callers ensure it equals `c`). -/
def GetMatchedDelimiterCount (doc : Doc) (p : Nat) (c : Nat) : Nat :=
  1 + ((doc.drop (p + 1)).takeWhile (fun b => b == c)).length

/-- Modelled from the spec: skip spaces and tabs from `p` (bounded by `stop`). -/
def LexSkipSpaceTab (doc : Doc) (p stop : Nat) : Nat :=
  p + ((doc.drop p).take (stop - p) |>.takeWhile (fun c => IsASpaceOrTab c)).length

/-- Modelled from the spec: case-insensitive match of `w` at position `p`. -/
def MatchLowerCase (doc : Doc) (p : Nat) (w : List Nat) : Bool :=
  ((doc.drop p).take w.length).map UnsafeLower == w

/-- A keyword list.  Modelled from the spec (section 6.2): a set of words with
membership and prefixed-membership queries. -/
structure WordList where
  words : List (List Nat)
deriving DecidableEq

/-- `InList`. -/
def WordList.InList (wl : WordList) (s : List Nat) : Bool := wl.words.contains s

/-- `InListPrefixed(s, '(')`: matches plain entries and entries written
with a trailing `(` marker. -/
def WordList.InListPrefixed (wl : WordList) (s : List Nat) : Bool :=
  wl.words.contains s || wl.words.contains (s ++ [40])

/-- Byte list of an ASCII string literal. -/
def str2bytes (s : String) : List Nat := s.data.map Char.toNat

/-! ### LangC (LexCSharp.cxx) style constants.
Modelled from the spec (section 3): the numbering is chosen to satisfy every
ordering constraint the source imposes (`HasEscapeChar`, `IsVerbatimString`,
parity of `IsInterpolatedString`, `IsSingleLineString`, `IsPlainString`,
`IsSpaceEquiv`, the doc-comment offset static_assert, and
`state = interpolatorCount + SCE_CSHARP_STRING`). -/

def SCE_CSHARP_DEFAULT : Nat := 0
def SCE_CSHARP_COMMENTLINE : Nat := 1
def SCE_CSHARP_COMMENTBLOCK : Nat := 2
def SCE_CSHARP_COMMENTLINEDOC : Nat := 3
def SCE_CSHARP_COMMENTBLOCKDOC : Nat := 4
def SCE_CSHARP_TASKMARKER : Nat := 5
def SCE_CSHARP_ESCAPECHAR : Nat := 6
def SCE_CSHARP_CHARACTER : Nat := 7
def SCE_CSHARP_STRING : Nat := 8
def SCE_CSHARP_INTERPOLATED_STRING : Nat := 9
def SCE_CSHARP_RAWSTRING_SL : Nat := 10
def SCE_CSHARP_INTERPOLATED_RAWSTRING_SL : Nat := 11
def SCE_CSHARP_RAWSTRING_ML : Nat := 12
def SCE_CSHARP_INTERPOLATED_RAWSTRING_ML : Nat := 13
def SCE_CSHARP_VERBATIM_STRING : Nat := 14
def SCE_CSHARP_INTERPOLATED_VERBATIM_STRING : Nat := 15
def SCE_CSHARP_COMMENTTAG_XML : Nat := 16
def SCE_CSHARP_NUMBER : Nat := 17
def SCE_CSHARP_OPERATOR : Nat := 18
def SCE_CSHARP_OPERATOR2 : Nat := 19
def SCE_CSHARP_IDENTIFIER : Nat := 20
def SCE_CSHARP_WORD : Nat := 21
def SCE_CSHARP_WORD2 : Nat := 22
def SCE_CSHARP_CLASS : Nat := 23
def SCE_CSHARP_INTERFACE : Nat := 24
def SCE_CSHARP_STRUCT : Nat := 25
def SCE_CSHARP_ENUM : Nat := 26
def SCE_CSHARP_RECORD : Nat := 27
def SCE_CSHARP_ATTRIBUTE : Nat := 28
def SCE_CSHARP_CONSTANT : Nat := 29
def SCE_CSHARP_FUNCTION : Nat := 30
def SCE_CSHARP_FUNCTION_DEFINITION : Nat := 31
def SCE_CSHARP_LABEL : Nat := 32
def SCE_CSHARP_PREPROCESSOR : Nat := 33
def SCE_CSHARP_PREPROCESSOR_WORD : Nat := 34
def SCE_CSHARP_PREPROCESSOR_MESSAGE : Nat := 35
def SCE_CSHARP_PLACEHOLDER : Nat := 36
def SCE_CSHARP_FORMAT_SPECIFIER : Nat := 37

/-! ### LexCSharp.cxx predicates over states (lines 28-191) -/

-- LexCSharp.cxx:28
def HasEscapeChar (state : Nat) : Bool := state ≤ SCE_CSHARP_INTERPOLATED_STRING

-- LexCSharp.cxx:32
def IsVerbatimString (state : Nat) : Bool := SCE_CSHARP_VERBATIM_STRING ≤ state

-- LexCSharp.cxx:36 (SCE_CSHARP_INTERPOLATED_STRING is odd, so `state & 1`)
def IsInterpolatedString (state : Nat) : Bool := state % 2 == 1

-- LexCSharp.cxx:44
def IsSingleLineString (state : Nat) : Bool := state < SCE_CSHARP_RAWSTRING_ML

-- LexCSharp.cxx:48
def IsPlainString (state : Nat) : Bool :=
  state < SCE_CSHARP_RAWSTRING_SL || SCE_CSHARP_INTERPOLATED_RAWSTRING_ML < state

-- LexCSharp.cxx:131
def IsUnicodeEscape (c cNext : Nat) : Bool := c == 92 && UnsafeLower cNext == 117

-- LexCSharp.cxx:135
def IsCsIdentifierStart (c cNext : Nat) : Bool :=
  IsIdentifierStartEx c || IsUnicodeEscape c cNext

-- LexCSharp.cxx:139
def IsCsIdentifierChar (c cNext : Nat) : Bool :=
  IsIdentifierCharEx c || IsUnicodeEscape c cNext

-- LexCSharp.cxx:143
def IsXmlCommentTagChar (c : Nat) : Bool := IsIdentifierChar c || c == 45 || c == 58

-- LexCSharp.cxx:147
def PreferArrayIndex (c : Nat) : Bool := c == 41 || c == 93 || IsIdentifierCharEx c

-- LexCSharp.cxx:151
def csIsSpaceEquiv (state : Nat) : Bool := state ≤ SCE_CSHARP_TASKMARKER

-- LexCSharp.cxx:156
def IsInvalidFormatSpecifier (c : Nat) : Bool := c < 32 || c == 34 || c == 123 || c == 125

-- LexCSharp.cxx:161-186
def CheckFormatSpecifier (doc : Doc) (p0 : Nat) : Nat :=
  let p := p0
  let c := byteAt doc p
  let pc : Nat × Nat :=
    if c == 44 then
      let p := p + 1
      let c := byteAt doc p
      let p := if c == 45 then p + 1 else p
      let n := ((doc.drop p).takeWhile (fun b => IsADigit b)).length
      (p + n, byteAt doc (p + n))
    else (p, c)
  let p := pc.1
  let c := pc.2
  let pc2 : Nat × Nat :=
    if c == 58 then
      let p := p + 1
      let n := (((doc.drop p).take 32).takeWhile (fun b => !IsInvalidFormatSpecifier b)).length
      (p + n, byteAt doc (p + n))
    else (p, c)
  if pc2.2 == 125 then pc2.1 - p0 else 0

-- LexCSharp.cxx:188
def IsInterpolatedStringEnd (doc : Doc) (sc : Sc) : Bool :=
  let c := byteAt doc sc.pos
  let cNext := byteAt doc (sc.pos + 1)
  c == 125 || c == 58
    || (c == 44 && (IsADigit cNext || (cNext == 45 && IsADigit (byteAt doc (sc.pos + 2)))))

/-! ### LangC lexer state (locals of ColouriseCSharpDoc) -/

-- LexCSharp.cxx:104
inductive PreprocessorKind where
  | None | Init | Pragma | Message | Other
deriving DecidableEq

-- LexCSharp.cxx:112
inductive DocTagState where
  | None | XmlOpen | XmlClose
deriving DecidableEq

-- LexCSharp.cxx:118 (KeywordType values; Nat-valued like the C enum)
def kwtNone : Nat := SCE_CSHARP_DEFAULT
def kwtAttribute : Nat := SCE_CSHARP_ATTRIBUTE
def kwtClass : Nat := SCE_CSHARP_CLASS
def kwtInterface : Nat := SCE_CSHARP_INTERFACE
def kwtStruct : Nat := SCE_CSHARP_STRUCT
def kwtEnum : Nat := SCE_CSHARP_ENUM
def kwtRecord : Nat := SCE_CSHARP_RECORD
def kwtLabel : Nat := SCE_CSHARP_LABEL
def kwtReturn : Nat := 64
def kwtWhile : Nat := 65

-- LexCSharp.cxx:76
structure InterpolatedStringState where
  state : Nat
  parenCount : Int
  delimiterCount : Nat
  interpolatorCount : Nat
deriving DecidableEq

-- LexCSharp.cxx:83
def CSharpLineStateMaskLineComment : Nat := 1
def CSharpLineStateMaskUsing : Nat := 2
def CSharpLineStateMaskInterpolation : Nat := 4

/-- Keyword lists passed to ColouriseCSharpDoc (indexes of LexCSharp.cxx:90-101). -/
structure CsKeywordLists where
  keyword : WordList
  type : WordList
  valaType : WordList
  preprocessor : WordList
  attr : WordList
  cls : WordList
  strct : WordList
  intf : WordList
  enumeration : WordList
  constant : WordList
deriving DecidableEq

/-- The local variables of ColouriseCSharpDoc (LexCSharp.cxx:193-211) together
with the style cursor and the per-line state writes performed so far. -/
structure CsCfg where
  sc : Sc
  lineStateLineType : Nat
  kwType : Nat
  chBeforeIdentifier : Nat
  parenCount : Nat
  stringDelimiterCount : Nat
  stringInterpolatorCount : Nat
  ppKind : PreprocessorKind
  visibleChars : Nat
  chBefore : Nat
  visibleCharsBefore : Nat
  chPrevNonWhite : Nat
  docTagState : DocTagState
  escOuter : Nat
  escDigits : Nat
  closeBrace : Bool
  nestedState : List InterpolatedStringState
  lineStates : List (Nat × Nat)
deriving DecidableEq

/-- EscapeSequence::resetEscapeState (LexCSharp.cxx:57-69); returns the
success flag and the new `(outerState, digitsLeft)`. -/
def resetEscapeState (state cNext : Nat) : Bool × Nat × Nat :=
  if IsEOLChar cNext then (false, state, 0)
  else
    let digits := if cNext == 120 || cNext == 117 then 5 else if cNext == 85 then 9 else 1
    (true, state, digits)

/-- EscapeSequence::atEscapeEnd (LexCSharp.cxx:70-73); returns the flag and
the decremented digit count. -/
def atEscapeEnd (digitsLeft c : Nat) : Bool × Nat :=
  let d := digitsLeft - 1
  (d == 0 || !IsHexDigit c, d)

/-- Modelled from the spec: task markers inside comments.  A marker word from
the configurable list matching at the cursor on a word boundary is styled
`markerStyle` and skipped; returns the advanced cursor and whether a marker
was highlighted. -/
def HighlightTaskMarker (tm : WordList) (doc : Doc) (markerStyle : Nat) (sc : Sc) : Sc × Bool :=
  if !IsIdentifierChar (byteAt doc (sc.pos - 1)) then
    match tm.words.find? (fun w =>
        decide (w ≠ []) && ((doc.drop sc.pos).take w.length == w)
          && !IsIdentifierChar (byteAt doc (sc.pos + w.length))) with
    | some w =>
      let outer := sc.state
      let sc := scSetState markerStyle sc
      let sc := scAdvance (w.length : Int) sc
      let sc := scSetState outer sc
      (sc, true)
    | none => (sc, false)
  else (sc, false)

/-- The packed per-line state written at line ends
(LexCSharp.cxx:739-747, uint32 arithmetic). -/
def csPackLineState (lt dc ic paren : Nat) (interp : Bool) : Nat :=
  ((((lt ||| (dc % 4294967296 * 16 % 4294967296))
      ||| (ic % 4294967296 * 4096 % 4294967296))
      ||| (paren % 4294967296 * 1048576 % 4294967296))
      ||| (if interp then CSharpLineStateMaskInterpolation else 0)) % 4294967296

/-- Lookup of a stored per-line state (0 when the line was never written),
the host's GetLineState. -/
def getLineState (lineStates : List (Nat × Nat)) (ln : Nat) : Nat :=
  match lineStates.find? (fun e => e.1 == ln) with
  | some e => e.2
  | none => 0

/-! ### ColouriseCSharpDoc, one loop-body entry at a time.
Each arm returns the updated configuration and a flag that is true exactly
when the C++ code executes `continue` (skipping the default-state block, the
bottom-of-loop bookkeeping and `sc.Forward()`). -/

-- LexCSharp.cxx:247-250
def csArmOperator (cfg : CsCfg) : CsCfg × Bool :=
  ({ cfg with sc := scSetState SCE_CSHARP_DEFAULT cfg.sc }, false)

-- LexCSharp.cxx:252-256
def csArmNumber (doc : Doc) (cfg : CsCfg) : CsCfg × Bool :=
  let p := cfg.sc.pos
  if !IsDecimalNumber (byteAt doc (p - 1)) (byteAt doc p) (byteAt doc (p + 1)) then
    ({ cfg with sc := scSetState SCE_CSHARP_DEFAULT cfg.sc }, false)
  else (cfg, false)

-- LexCSharp.cxx:258-400
def csArmIdentifier (kw : CsKeywordLists) (doc : Doc) (cfg : CsCfg) : CsCfg × Bool :=
  let p := cfg.sc.pos
  let ch := byteAt doc p
  let chNext := byteAt doc (p + 1)
  if IsCsIdentifierChar ch chNext then (cfg, false)
  else
    let s := scCurrent doc 128 cfg.sc
    -- switch (ppKind), LexCSharp.cxx:263-343
    let cfg :=
      match cfg.ppKind with
      | PreprocessorKind.None =>
        if s.getD 0 0 == 64 then cfg
        else if kw.keyword.InList s then
          let cfg := { cfg with sc := scChangeState SCE_CSHARP_WORD cfg.sc }
          let cfg :=
            if s == str2bytes "using" then
              if cfg.visibleChars == scLengthCurrent cfg.sc then
                { cfg with lineStateLineType := CSharpLineStateMaskUsing }
              else cfg
            else if s == str2bytes "class" || s == str2bytes "new" || s == str2bytes "as"
                || s == str2bytes "is" then { cfg with kwType := kwtClass }
            else if s == str2bytes "struct" then { cfg with kwType := kwtStruct }
            else if s == str2bytes "interface" then { cfg with kwType := kwtInterface }
            else if s == str2bytes "enum" then { cfg with kwType := kwtEnum }
            else if s == str2bytes "record" then { cfg with kwType := kwtRecord }
            else if s == str2bytes "goto" then { cfg with kwType := kwtLabel }
            else if s == str2bytes "return" || s == str2bytes "await"
                || s == str2bytes "yield" then { cfg with kwType := kwtReturn }
            else if s == str2bytes "if" || s == str2bytes "while" then
              { cfg with kwType := kwtWhile }
            else cfg
          if kwtNone < cfg.kwType && cfg.kwType < kwtReturn then
            if !IsIdentifierStartEx (scGetDocNextChar doc false cfg.sc) then
              { cfg with kwType := kwtNone }
            else cfg
          else cfg
        else if kw.type.InList s || kw.valaType.InList s then
          { cfg with sc := scChangeState SCE_CSHARP_WORD2 cfg.sc }
        else if kw.cls.InList s then { cfg with sc := scChangeState SCE_CSHARP_CLASS cfg.sc }
        else if kw.strct.InList s then { cfg with sc := scChangeState SCE_CSHARP_STRUCT cfg.sc }
        else if kw.intf.InList s then { cfg with sc := scChangeState SCE_CSHARP_INTERFACE cfg.sc }
        else if kw.enumeration.InList s then
          { cfg with sc := scChangeState SCE_CSHARP_ENUM cfg.sc }
        else if kw.attr.InList s then { cfg with sc := scChangeState SCE_CSHARP_ATTRIBUTE cfg.sc }
        else if kw.constant.InList s then
          { cfg with sc := scChangeState SCE_CSHARP_CONSTANT cfg.sc }
        else cfg
      | PreprocessorKind.Init =>
        let cfg :=
          if cfg.sc.state == SCE_CSHARP_IDENTIFIER then
            { cfg with sc := scChangeState SCE_CSHARP_PREPROCESSOR cfg.sc }
          else cfg
        if 1 < scLengthCurrent cfg.sc then
          let t := if s.getD 0 0 == 35 then s.drop 1 else s
          if t == str2bytes "pragma" || t == str2bytes "line" || t == str2bytes "nullable" then
            { cfg with ppKind := PreprocessorKind.Pragma }
          else if t == str2bytes "error" || t == str2bytes "warning" || t == str2bytes "region"
              || t == str2bytes "endregion" then
            { cfg with ppKind := PreprocessorKind.Message }
          else { cfg with ppKind := PreprocessorKind.Other }
        else if !IsASpaceOrTab ch then { cfg with ppKind := PreprocessorKind.Other }
        else cfg
      | PreprocessorKind.Pragma =>
        { cfg with ppKind := PreprocessorKind.Other,
                   sc := scChangeState SCE_CSHARP_PREPROCESSOR_WORD cfg.sc }
      | _ => cfg
    -- LexCSharp.cxx:345-394
    let cfg :=
      if cfg.ppKind == PreprocessorKind.None && cfg.sc.state == SCE_CSHARP_IDENTIFIER then
        if ch == 58 then
          if cfg.parenCount == 0 && IsJumpLabelPrevChar cfg.chBefore then
            { cfg with sc := scChangeState SCE_CSHARP_LABEL cfg.sc }
          else if cfg.chBefore == 91 then
            { cfg with sc := scChangeState SCE_CSHARP_ATTRIBUTE cfg.sc, kwType := kwtAttribute }
          else cfg
        else if ch != 46 then
          if kwtNone < cfg.kwType && cfg.kwType < kwtReturn then
            { cfg with sc := scChangeState cfg.kwType cfg.sc }
          else
            let chNextD := scGetDocNextChar doc (ch == 63 || ch == 41) cfg.sc
            if ch == 41 then
              if cfg.chBeforeIdentifier == 40
                  && (chNextD == 40 || (cfg.kwType != kwtWhile && IsIdentifierCharEx chNextD)) then
                { cfg with sc := scChangeState SCE_CSHARP_CLASS cfg.sc }
              else cfg
            else if chNextD == 40 then
              if cfg.kwType != kwtReturn
                  && (IsIdentifierCharEx cfg.chBefore || cfg.chBefore == 93) then
                { cfg with sc := scChangeState SCE_CSHARP_FUNCTION_DEFINITION cfg.sc }
              else { cfg with sc := scChangeState SCE_CSHARP_FUNCTION cfg.sc }
            else if (ch == 91 && (chNext == 93 || chNext == 44))
                || (cfg.chBeforeIdentifier == 60 && (chNextD == 62 || chNextD == 60))
                || IsIdentifierStartEx chNextD then
              let st2 := if IsInterfaceName (s.getD 0 0) (s.getD 1 0) then SCE_CSHARP_INTERFACE
                else SCE_CSHARP_CLASS
              { cfg with sc := scChangeState st2 cfg.sc }
            else cfg
        else cfg
      else cfg
    -- LexCSharp.cxx:395-398
    let cfg :=
      if cfg.sc.state != SCE_CSHARP_WORD && cfg.sc.state != SCE_CSHARP_ATTRIBUTE
          && ch != 46 then
        { cfg with kwType := kwtNone }
      else cfg
    ({ cfg with sc := scSetState SCE_CSHARP_DEFAULT cfg.sc }, false)

-- LexCSharp.cxx:402-406
def csArmPpMessage (doc : Doc) (cfg : CsCfg) : CsCfg × Bool :=
  if atLineStartPos doc cfg.sc.pos then
    ({ cfg with sc := scSetState SCE_CSHARP_DEFAULT cfg.sc }, false)
  else (cfg, false)

-- LexCSharp.cxx:408-445
def csArmComment (tm : WordList) (doc : Doc) (cfg : CsCfg) : CsCfg × Bool :=
  if atLineStartPos doc cfg.sc.pos
      && (cfg.sc.state == SCE_CSHARP_COMMENTLINE || cfg.sc.state == SCE_CSHARP_COMMENTLINEDOC) then
    ({ cfg with sc := scSetState SCE_CSHARP_DEFAULT cfg.sc }, false)
  else
    let cfg :=
      if cfg.docTagState != DocTagState.None then
        if scMatch2 doc 47 62 cfg.sc || byteAt doc cfg.sc.pos == 62 then
          let sc := scSetState SCE_CSHARP_COMMENTTAG_XML cfg.sc
          let sc := scForwardN (if byteAt doc sc.pos == 47 then 2 else 1) sc
          { cfg with docTagState := DocTagState.None, sc := scSetState cfg.escOuter sc }
        else cfg
      else cfg
    if (cfg.sc.state == SCE_CSHARP_COMMENTBLOCK || cfg.sc.state == SCE_CSHARP_COMMENTBLOCKDOC)
        && scMatch2 doc 42 47 cfg.sc then
      ({ cfg with sc := scForwardSetState SCE_CSHARP_DEFAULT (scForward cfg.sc) }, false)
    else if cfg.docTagState == DocTagState.None then
      if byteAt doc cfg.sc.pos == 60
          && (cfg.sc.state == SCE_CSHARP_COMMENTLINEDOC
              || cfg.sc.state == SCE_CSHARP_COMMENTBLOCKDOC) then
        if IsAlpha (byteAt doc (cfg.sc.pos + 1)) then
          ({ cfg with docTagState := DocTagState.XmlOpen, escOuter := cfg.sc.state,
                      sc := scSetState SCE_CSHARP_COMMENTTAG_XML cfg.sc }, false)
        else if byteAt doc (cfg.sc.pos + 1) == 47 && IsAlpha (byteAt doc (cfg.sc.pos + 2)) then
          ({ cfg with docTagState := DocTagState.XmlClose, escOuter := cfg.sc.state,
                      sc := scForward (scSetState SCE_CSHARP_COMMENTTAG_XML cfg.sc) }, false)
        else (cfg, false)
      else
        match HighlightTaskMarker tm doc SCE_CSHARP_TASKMARKER cfg.sc with
        | (sc, matched) => ({ cfg with sc := sc }, matched)
    else (cfg, false)

-- LexCSharp.cxx:447-452
def csArmXmlTag (doc : Doc) (cfg : CsCfg) : CsCfg × Bool :=
  if !IsXmlCommentTagChar (byteAt doc cfg.sc.pos) then
    ({ cfg with sc := scSetState cfg.escOuter cfg.sc }, true)
  else (cfg, false)

-- LexCSharp.cxx:469-563: the string arm after the unterminated-line check
def csStringBody (doc : Doc) (cfg : CsCfg) : CsCfg × Bool :=
  let p := cfg.sc.pos
  let ch := byteAt doc p
  let chNext := byteAt doc (p + 1)
  let state := cfg.sc.state
  if ch == 92 then
    if HasEscapeChar state then
      match resetEscapeState state chNext with
      | (true, outer, digits) =>
        ({ cfg with escOuter := outer, escDigits := digits,
                    sc := scForward (scSetState SCE_CSHARP_ESCAPECHAR cfg.sc) }, false)
      | (false, _, _) => (cfg, false)
    else (cfg, false)
  else if ch == 39 && state == SCE_CSHARP_CHARACTER then
    ({ cfg with sc := scForwardSetState SCE_CSHARP_DEFAULT cfg.sc }, false)
  else if state != SCE_CSHARP_CHARACTER then
    if ch == 34 then
      if chNext == 34 && IsVerbatimString state then
        ({ cfg with escOuter := state, escDigits := 1,
                    sc := scForward (scSetState SCE_CSHARP_ESCAPECHAR cfg.sc) }, false)
      else
        let sc := scForward cfg.sc
        let hd : Bool × Nat × Nat × Sc :=
          if !IsPlainString state && scMatch2 doc 34 34 sc
              && (cfg.visibleChars == 0 || IsSingleLineString state) then
            let delimiterCount := GetMatchedDelimiterCount doc (sc.pos + 1) 34 + 2
            if delimiterCount == cfg.stringDelimiterCount then
              (true, 0, 0, scAdvance ((delimiterCount : Int) - 1) sc)
            else (IsPlainString state, cfg.stringDelimiterCount, cfg.stringInterpolatorCount, sc)
          else (IsPlainString state, cfg.stringDelimiterCount, cfg.stringInterpolatorCount, sc)
        let sc := hd.2.2.2
        if hd.1 then
          let sc :=
            if byteAt doc (sc.pos + 1) == 56 && UnsafeLower (byteAt doc sc.pos) == 117 then
              scForwardN 2 sc
            else sc
          let sc := scSetState SCE_CSHARP_DEFAULT sc
          let cfg := { cfg with sc := sc, stringDelimiterCount := hd.2.1,
                                stringInterpolatorCount := hd.2.2.1 }
          -- LexCSharp.cxx:502 compares the frame state with the new default state
          match cfg.nestedState with
          | f :: rest =>
            if f.state == cfg.sc.state then ({ cfg with nestedState := rest }, false)
            else (cfg, false)
          | [] => (cfg, false)
        else
          ({ cfg with sc := sc, stringDelimiterCount := hd.2.1,
                      stringInterpolatorCount := hd.2.2.1 }, true)
    else if ch == 123 then
      if chNext == 123 && IsPlainString state then
        ({ cfg with escOuter := state, escDigits := 1,
                    sc := scForward (scSetState SCE_CSHARP_ESCAPECHAR cfg.sc) }, false)
      else
        let opened : Option CsCfg :=
          if IsInterpolatedString state then
            let interpolatorCount := GetMatchedDelimiterCount doc p 123
            if IsPlainString state || cfg.stringInterpolatorCount ≤ interpolatorCount then
              let sic := cfg.stringInterpolatorCount
              let sc := scAdvance ((interpolatorCount : Int) - (sic : Int)) cfg.sc
              let sc := scSetState SCE_CSHARP_OPERATOR2 sc
              let sc := scAdvance ((sic : Int) - 1) sc
              let sc := scForwardSetState SCE_CSHARP_DEFAULT sc
              some { cfg with
                nestedState :=
                  ⟨state, 0, cfg.stringDelimiterCount, cfg.stringInterpolatorCount⟩
                    :: cfg.nestedState,
                sc := sc, stringDelimiterCount := 0, stringInterpolatorCount := 0 }
            else none
          else none
        match opened with
        | some cfg2 => (cfg2, false)
        | none =>
          if IsIdentifierCharEx chNext || chNext == 64 || chNext == 36 then
            let sc := scSetState SCE_CSHARP_PLACEHOLDER cfg.sc
            let sc := if chNext == 64 || chNext == 36 then scForward sc else sc
            ({ cfg with escOuter := state, sc := sc }, false)
          else (cfg, false)
    else if ch == 125 then
      let cfg := { cfg with closeBrace := false }
      let closed : Option (CsCfg × Bool) :=
        if IsInterpolatedString state then
          let interpolatorCount :=
            if IsPlainString state then 1 else GetMatchedDelimiterCount doc p 125
          let interpolating := decide (cfg.nestedState ≠ [])
              && cfg.stringInterpolatorCount ≤ interpolatorCount
          let cfg := if interpolating then { cfg with nestedState := cfg.nestedState.tail }
            else cfg
          if interpolating || (chNext != 125 && IsPlainString state) then
            let sic := cfg.stringInterpolatorCount
            let sc := scSetState SCE_CSHARP_OPERATOR2 cfg.sc
            let sc := scAdvance ((sic : Int) - 1) sc
            let sc := scForwardSetState state sc
            let sc := scAdvance ((interpolatorCount : Int) - (sic : Int)) sc
            some ({ cfg with sc := sc }, true)
          else none
        else none
      match closed with
      | some r => r
      | none =>
        if chNext == 125 && IsPlainString state then
          ({ cfg with escOuter := state, escDigits := 1,
                      sc := scForward (scSetState SCE_CSHARP_ESCAPECHAR cfg.sc) }, false)
        else (cfg, false)
    else (cfg, false)
  else (cfg, false)

-- LexCSharp.cxx:454-564: the string arm; at a line start a single-line
-- string closes (revert to default) unless the closeBrace latch is set
def csArmString (doc : Doc) (cfg : CsCfg) : CsCfg × Bool :=
  if atLineStartPos doc cfg.sc.pos && IsSingleLineString cfg.sc.state && !cfg.closeBrace then
    ({ cfg with sc := scSetState SCE_CSHARP_DEFAULT cfg.sc }, false)
  else csStringBody doc cfg

-- LexCSharp.cxx:566-571
def csArmFormatSpecifier (doc : Doc) (cfg : CsCfg) : CsCfg × Bool :=
  if IsInvalidFormatSpecifier (byteAt doc cfg.sc.pos) then
    ({ cfg with sc := scSetState cfg.escOuter cfg.sc }, true)
  else (cfg, false)

-- LexCSharp.cxx:573-589
def csArmPlaceholder (doc : Doc) (cfg : CsCfg) : CsCfg × Bool :=
  let ch := byteAt doc cfg.sc.pos
  if !IsIdentifierCharEx ch then
    let cfg :=
      if ch != 125 then
        let len := CheckFormatSpecifier doc cfg.sc.pos
        if len == 0 then
          { cfg with sc := scChangeState cfg.escOuter (scRewind cfg.sc) }
        else
          let sc := scSetState SCE_CSHARP_FORMAT_SPECIFIER cfg.sc
          let sc := scAdvance (len : Int) sc
          { cfg with sc := scSetState SCE_CSHARP_PLACEHOLDER sc }
      else cfg
    ({ cfg with sc := scForwardSetState cfg.escOuter cfg.sc }, true)
  else (cfg, false)

-- LexCSharp.cxx:591-596
def csArmEscape (doc : Doc) (cfg : CsCfg) : CsCfg × Bool :=
  match atEscapeEnd cfg.escDigits (byteAt doc cfg.sc.pos) with
  | (true, d) => ({ cfg with escDigits := d, sc := scSetState cfg.escOuter cfg.sc }, true)
  | (false, d) => ({ cfg with escDigits := d }, false)

-- LexCSharp.cxx:599-729 (the sc.state == SCE_CSHARP_DEFAULT block)
def csDefaultBlock (doc : Doc) (cfg : CsCfg) : CsCfg × Bool :=
  let p := cfg.sc.pos
  let ch := byteAt doc p
  let chNext := byteAt doc (p + 1)
  if cfg.ppKind == PreprocessorKind.Message && !isspacechar ch then
    ({ cfg with sc := scSetState SCE_CSHARP_PREPROCESSOR_MESSAGE cfg.sc }, false)
  else if ch == 47 && (chNext == 47 || chNext == 42) then
    let cfg := { cfg with visibleCharsBefore := cfg.visibleChars,
                          docTagState := DocTagState.None }
    let cfg :=
      if chNext == 47 && cfg.visibleChars == 0 then
        { cfg with lineStateLineType := CSharpLineStateMaskLineComment }
      else cfg
    let sc := scSetState
        (if chNext == 47 then SCE_CSHARP_COMMENTLINE else SCE_CSHARP_COMMENTBLOCK) cfg.sc
    let sc := scForwardN 2 sc
    let sc :=
      if byteAt doc sc.pos == chNext && byteAt doc (sc.pos + 1) != chNext then
        scChangeState (sc.state + (SCE_CSHARP_COMMENTLINEDOC - SCE_CSHARP_COMMENTLINE)) sc
      else sc
    ({ cfg with sc := sc }, true)
  else if ch == 34 || ch == 36 || ch == 64 then
    let chNext2 := byteAt doc (p + 2)
    if chNext2 == 34 && (scMatch2 doc 36 64 cfg.sc || scMatch2 doc 64 36 cfg.sc) then
      ({ cfg with stringDelimiterCount := 0, stringInterpolatorCount := 1,
                  sc := scAdvance 2 (scSetState SCE_CSHARP_INTERPOLATED_VERBATIM_STRING cfg.sc) },
        false)
    else if ch == 64 then
      if chNext == 34 then
        ({ cfg with stringDelimiterCount := 0, stringInterpolatorCount := 0,
                    sc := scForward (scSetState SCE_CSHARP_VERBATIM_STRING cfg.sc) }, false)
      else if IsCsIdentifierStart chNext chNext2 then
        let cfg := { cfg with chBefore := cfg.chPrevNonWhite }
        let cfg :=
          if cfg.chPrevNonWhite != 46 then { cfg with chBeforeIdentifier := cfg.chPrevNonWhite }
          else cfg
        ({ cfg with sc := scForward (scSetState SCE_CSHARP_IDENTIFIER cfg.sc) }, false)
      else (cfg, false)
    else
      -- LexCSharp.cxx:641-677
      let ic0 : Nat × Nat × Nat :=
        if ch == 36 then
          if chNext == 34 then (1, p + 1, 34)
          else if chNext == 36 then
            let n := 1 + GetMatchedDelimiterCount doc (p + 1) 36
            (n, p + n, byteAt doc (p + n))
          else (1, p, ch)
        else (0, p, ch)
      let interpolatorCount := ic0.1
      let pos0 := ic0.2.1
      if ic0.2.2 == 34 then
        let delimiterCount := GetMatchedDelimiterCount doc pos0 34
        if 3 ≤ delimiterCount then
          let cAfter := LexGetNextChar doc (pos0 + delimiterCount) (nextLineStart doc p)
          let state0 := if cAfter == 0 then SCE_CSHARP_RAWSTRING_ML else SCE_CSHARP_RAWSTRING_SL
          let state0 := if interpolatorCount != 0 then
              state0 + (SCE_CSHARP_INTERPOLATED_RAWSTRING_SL - SCE_CSHARP_RAWSTRING_SL)
            else state0
          let dTotal := if interpolatorCount != 0 then delimiterCount + interpolatorCount
            else delimiterCount
          ({ cfg with stringDelimiterCount := delimiterCount,
                      stringInterpolatorCount := interpolatorCount,
                      sc := scAdvance ((dTotal : Int) - 1) (scSetState state0 cfg.sc) }, false)
        else
          ({ cfg with stringDelimiterCount := 0,
                      stringInterpolatorCount := interpolatorCount,
                      sc := scAdvance ((1 + interpolatorCount : Int) - 1)
                              (scSetState (interpolatorCount + SCE_CSHARP_STRING) cfg.sc) },
            false)
      else (cfg, false)
  else if ch == 39 then
    ({ cfg with sc := scSetState SCE_CSHARP_CHARACTER cfg.sc }, false)
  else if cfg.visibleChars == 0 && ch == 35 then
    ({ cfg with ppKind := PreprocessorKind.Init,
                sc := scSetState SCE_CSHARP_PREPROCESSOR cfg.sc }, false)
  else if IsNumberStart ch chNext then
    ({ cfg with sc := scSetState SCE_CSHARP_NUMBER cfg.sc }, false)
  else if IsCsIdentifierStart ch chNext then
    let cfg := { cfg with chBefore := cfg.chPrevNonWhite }
    let cfg :=
      if cfg.chPrevNonWhite != 46 then { cfg with chBeforeIdentifier := cfg.chPrevNonWhite }
      else cfg
    ({ cfg with sc := scSetState SCE_CSHARP_IDENTIFIER cfg.sc }, false)
  else if IsAGraphic ch && ch != 92 then
    let interpolating := !cfg.nestedState.isEmpty
    let opStyle := if interpolating then SCE_CSHARP_OPERATOR2 else SCE_CSHARP_OPERATOR
    let cfg := { cfg with sc := scSetState opStyle cfg.sc }
    let cfg :=
      if ch == 40 || ch == 91 then
        match cfg.nestedState with
        | f :: rest => { cfg with nestedState := { f with parenCount := f.parenCount + 1 } :: rest }
        | [] => { cfg with parenCount := cfg.parenCount + 1 }
      else if ch == 41 || ch == 93 then
        match cfg.nestedState with
        | f :: rest => { cfg with nestedState := { f with parenCount := f.parenCount - 1 } :: rest }
        | [] =>
          if 0 < cfg.parenCount then { cfg with parenCount := cfg.parenCount - 1 } else cfg
      else cfg
    match cfg.nestedState with
    | f :: _ =>
      if f.parenCount ≤ 0 && IsInterpolatedStringEnd doc cfg.sc then
        let cb := ch == 125
        ({ cfg with escOuter := f.state,
                    stringDelimiterCount := f.delimiterCount,
                    stringInterpolatorCount := f.interpolatorCount,
                    closeBrace := cb,
                    sc := scChangeState (if cb then f.state else SCE_CSHARP_FORMAT_SPECIFIER)
                            cfg.sc }, true)
      else (cfg, false)
    | [] =>
      if cfg.kwType == kwtNone && ch == 91 then
        if cfg.visibleChars == 0 || !PreferArrayIndex cfg.chPrevNonWhite then
          ({ cfg with kwType := kwtAttribute }, false)
        else (cfg, false)
      else if cfg.kwType == kwtAttribute && (ch == 40 || ch == 93) then
        ({ cfg with kwType := kwtNone }, false)
      else (cfg, false)
  else (cfg, false)

-- LexCSharp.cxx:732-755 (bottom-of-loop bookkeeping and sc.Forward())
def csBottom (doc : Doc) (cfg : CsCfg) : CsCfg :=
  let p := cfg.sc.pos
  let ch := byteAt doc p
  let cfg :=
    if !isspacechar ch then
      let cfg := { cfg with visibleChars := cfg.visibleChars + 1 }
      if !csIsSpaceEquiv cfg.sc.state then { cfg with chPrevNonWhite := ch } else cfg
    else cfg
  let cfg :=
    if atLineEndPos doc p then
      let v := csPackLineState cfg.lineStateLineType cfg.stringDelimiterCount
          cfg.stringInterpolatorCount cfg.parenCount (!cfg.nestedState.isEmpty)
      { cfg with lineStates := (lineOf doc p, v) :: cfg.lineStates,
                 lineStateLineType := 0, visibleChars := 0, visibleCharsBefore := 0,
                 docTagState := DocTagState.None, ppKind := PreprocessorKind.None,
                 kwType := kwtNone }
    else cfg
  { cfg with sc := scForward cfg.sc }

/-- The states handled by the string arm (the case labels of
LexCSharp.cxx:454-462). -/
def csIsStringArmState (st : Nat) : Bool :=
  st == SCE_CSHARP_CHARACTER || st == SCE_CSHARP_STRING
    || st == SCE_CSHARP_INTERPOLATED_STRING || st == SCE_CSHARP_VERBATIM_STRING
    || st == SCE_CSHARP_INTERPOLATED_VERBATIM_STRING || st == SCE_CSHARP_RAWSTRING_SL
    || st == SCE_CSHARP_INTERPOLATED_RAWSTRING_SL || st == SCE_CSHARP_RAWSTRING_ML
    || st == SCE_CSHARP_INTERPOLATED_RAWSTRING_ML

/-- The switch of LexCSharp.cxx:246-597, dispatching on sc.state. -/
def csSwitch (kw : CsKeywordLists) (tm : WordList) (doc : Doc) (cfg : CsCfg) : CsCfg × Bool :=
  let st := cfg.sc.state
  if st == SCE_CSHARP_OPERATOR || st == SCE_CSHARP_OPERATOR2 then csArmOperator cfg
  else if st == SCE_CSHARP_NUMBER then csArmNumber doc cfg
  else if st == SCE_CSHARP_IDENTIFIER || st == SCE_CSHARP_PREPROCESSOR then
    csArmIdentifier kw doc cfg
  else if st == SCE_CSHARP_PREPROCESSOR_MESSAGE then csArmPpMessage doc cfg
  else if st == SCE_CSHARP_COMMENTLINE || st == SCE_CSHARP_COMMENTLINEDOC
      || st == SCE_CSHARP_COMMENTBLOCK || st == SCE_CSHARP_COMMENTBLOCKDOC then
    csArmComment tm doc cfg
  else if st == SCE_CSHARP_COMMENTTAG_XML then csArmXmlTag doc cfg
  else if csIsStringArmState st then csArmString doc cfg
  else if st == SCE_CSHARP_FORMAT_SPECIFIER then csArmFormatSpecifier doc cfg
  else if st == SCE_CSHARP_PLACEHOLDER then csArmPlaceholder doc cfg
  else if st == SCE_CSHARP_ESCAPECHAR then csArmEscape doc cfg
  else (cfg, false)

/-- One entry of the while-loop body of ColouriseCSharpDoc. -/
def csStep (kw : CsKeywordLists) (tm : WordList) (doc : Doc) (cfg : CsCfg) : CsCfg :=
  match csSwitch kw tm doc cfg with
  | (cfg, true) => cfg
  | (cfg, false) =>
    match (if cfg.sc.state == SCE_CSHARP_DEFAULT then csDefaultBlock doc cfg
           else (cfg, false)) with
    | (cfg, true) => cfg
    | (cfg, false) => csBottom doc cfg

/-- Fuel-driven iteration of the loop while `sc.More()`. -/
def csRun (kw : CsKeywordLists) (tm : WordList) (doc : Doc) : Nat → CsCfg → CsCfg
  | 0, cfg => cfg
  | fuel + 1, cfg =>
    if cfg.sc.pos < doc.length then csRun kw tm doc fuel (csStep kw tm doc cfg) else cfg

/-- Fuel that completes all the concrete runs used in this development. -/
def csFuel (doc : Doc) : Nat := 4 * doc.length + 16

/-- The initial local variables of ColouriseCSharpDoc (LexCSharp.cxx:193-211). -/
def csInitCfg (startPos initStyle : Nat) : CsCfg := {
  sc := { pos := startPos, state := initStyle, runStart := startPos, runs := [] },
  lineStateLineType := 0, kwType := kwtNone, chBeforeIdentifier := 0, parenCount := 0,
  stringDelimiterCount := 0, stringInterpolatorCount := 0, ppKind := PreprocessorKind.None,
  visibleChars := 0, chBefore := 0, visibleCharsBefore := 0, chPrevNonWhite := 0,
  docTagState := DocTagState.None, escOuter := SCE_CSHARP_DEFAULT, escDigits := 0,
  closeBrace := false, nestedState := [], lineStates := [] }

/-- Helper for backtracking: the first line of the interpolation run
(mirrors the line walk of the spec's resumption protocol). -/
def backtrackLine (getLS : Nat → Nat) (mask : Nat) : Nat → Nat
  | 0 => if getLS 0 &&& mask != 0 then 0 else 1
  | n + 1 => if getLS (n + 1) &&& mask != 0 then backtrackLine getLS mask n else n + 2

/-- Modelled from the spec (section 4.1 step 1): when the prior line's
interpolation bit is set, back the start up to the first line of the
interpolation run; returns the adjusted start position. -/
def BacktrackToStart (doc : Doc) (lineStates : List (Nat × Nat)) (mask startPos : Nat) : Nat :=
  let currentLine := lineOf doc startPos
  if currentLine == 0 then startPos
  else
    let line := backtrackLine (getLineState lineStates) mask (currentLine - 1)
    if line == currentLine then startPos else lineStartPos doc line

/-- Modelled from the spec (section 4.1 step 3): walk backwards past
whitespace and task-marker styles to recover the previous significant byte
and its style. -/
def LookbackNonWhite (runs : List StyleRun) (doc : Doc) (startPos maxSpaceStyle : Nat) :
    Option (Nat × Nat) :=
  (List.range startPos).reverse.findSome? (fun q =>
    if maxSpaceStyle < styleAt runs q then some (byteAt doc q, styleAt runs q) else none)

/-- ColouriseCSharpDoc over the whole document starting from position 0
(the full lex). -/
def ColouriseCSharpDoc0 (kw : CsKeywordLists) (tm : WordList) (doc : Doc) : CsCfg :=
  let cfg := csInitCfg 0 0
  let cfg :=
    if scMatch2 doc 35 33 cfg.sc then
      { cfg with lineStateLineType := CSharpLineStateMaskLineComment,
                 sc := scForward (scSetState SCE_CSHARP_COMMENTLINE cfg.sc) }
    else cfg
  let cfg := csRun kw tm doc (csFuel doc) cfg
  { cfg with sc := scComplete cfg.sc }

/-- ColouriseCSharpDoc resumed at `startPos` with the style bytes and
per-line states stored by a prior lex (LexCSharp.cxx:213-243): the initial
style is the stored style of the preceding byte, the start is backed up out
of any interpolation run, the previous line's packed state is unpacked, and
the previous significant byte is recovered by the lookback walk. -/
def ColouriseCSharpDocFrom (kw : CsKeywordLists) (tm : WordList) (doc : Doc) (startPos : Nat)
    (prevRuns : List StyleRun) (prevLineStates : List (Nat × Nat)) : CsCfg :=
  let startPos2 := BacktrackToStart doc prevLineStates CSharpLineStateMaskInterpolation startPos
  let initStyle := if startPos2 == 0 then 0 else styleAt prevRuns (startPos2 - 1)
  let cfg := csInitCfg startPos2 initStyle
  let currentLine := lineOf doc startPos2
  let cfg :=
    if 0 < currentLine then
      let ls := getLineState prevLineStates (currentLine - 1)
      { cfg with stringDelimiterCount := (ls >>> 4) &&& 255,
                 stringInterpolatorCount := (ls >>> 12) &&& 255,
                 parenCount := ls >>> 20 }
    else cfg
  let cfg :=
    if startPos2 == 0 then
      if scMatch2 doc 35 33 cfg.sc then
        { cfg with lineStateLineType := CSharpLineStateMaskLineComment,
                   sc := scForward (scSetState SCE_CSHARP_COMMENTLINE cfg.sc) }
      else cfg
    else if csIsSpaceEquiv initStyle then
      match LookbackNonWhite prevRuns doc startPos2 SCE_CSHARP_TASKMARKER with
      | some r => { cfg with chPrevNonWhite := r.1 }
      | none => cfg
    else cfg
  let cfg := csRun kw tm doc (csFuel doc) cfg
  { cfg with sc := scComplete cfg.sc }

/-! ### LangB (LexVB.cxx) style constants.
Modelled from the spec (section 3); the numbering satisfies the source's
only ordering constraint, `IsSpaceEquiv(state) = state <= SCE_VB_LINE_CONTINUATION`. -/

def SCE_VB_DEFAULT : Nat := 0
def SCE_VB_COMMENTLINE : Nat := 1
def SCE_VB_TASKMARKER : Nat := 2
def SCE_VB_LINE_CONTINUATION : Nat := 3
def SCE_VB_NUMBER : Nat := 4
def SCE_VB_KEYWORD : Nat := 5
def SCE_VB_KEYWORD2 : Nat := 6
def SCE_VB_KEYWORD3 : Nat := 7
def SCE_VB_CLASS : Nat := 8
def SCE_VB_INTERFACE : Nat := 9
def SCE_VB_ENUM : Nat := 10
def SCE_VB_ATTRIBUTE : Nat := 11
def SCE_VB_CONSTANT : Nat := 12
def SCE_VB_BASIC_FUNCTION : Nat := 13
def SCE_VB_STRING : Nat := 14
def SCE_VB_INTERPOLATED_STRING : Nat := 15
def SCE_VB_OPERATOR : Nat := 16
def SCE_VB_OPERATOR2 : Nat := 17
def SCE_VB_IDENTIFIER : Nat := 18
def SCE_VB_LABEL : Nat := 19
def SCE_VB_DATE : Nat := 20
def SCE_VB_FILENUMBER : Nat := 21
def SCE_VB_PREPROCESSOR : Nat := 22
def SCE_VB_PREPROCESSOR_WORD : Nat := 23
def SCE_VB_FUNCTION_DEFINITION : Nat := 24
def SCE_VB_FORMAT_SPECIFIER : Nat := 25

/-! ### LexVB.cxx predicates and enums (lines 31-109) -/

-- LexVB.cxx:31
inductive Language where
  | VBNET | VBA | VBScript
deriving DecidableEq

-- LexVB.cxx:37
inductive VbKeywordType where
  | None | End | AccessModifier | Function | Preprocessor
deriving DecidableEq

-- LexVB.cxx:45
def VBLineType_CommentLine : Nat := 1
def VBLineType_DimLine : Nat := 2
def VBLineType_ConstLine : Nat := 3
def VBLineType_VB6TypeLine : Nat := 4
def VBLineStateLineContinuation : Nat := 8
def VBLineStateStringInterpolation : Nat := 16

-- LexVB.cxx:74
def IsTypeCharacter (c : Nat) : Bool :=
  c == 37 || c == 38 || c == 94 || c == 64 || c == 33 || c == 35 || c == 36

-- LexVB.cxx:84 (IsVBNumberPrefix in the source)
def IsVBNumberPrefixCh (c : Nat) : Bool :=
  UnsafeLower c == 104 || UnsafeLower c == 111 || UnsafeLower c == 98

-- LexVB.cxx:91
def PreferStringConcat (chPrevNonWhite stylePrevNonWhite : Nat) : Bool :=
  chPrevNonWhite == 34 || chPrevNonWhite == 41 || chPrevNonWhite == 93
    || (stylePrevNonWhite != SCE_VB_KEYWORD && IsIdentifierChar chPrevNonWhite)

-- LexVB.cxx:96
def vbIsSpaceEquiv (state : Nat) : Bool := state ≤ SCE_VB_LINE_CONTINUATION

/-- Modelled from the spec: ASCII lower-casing that leaves non-letters
unchanged (used by GetCurrentLowered). -/
def MakeLowerCase (c : Nat) : Nat := if IsUpperCase c then c + 32 else c

/-- The lowered pending token, `sc.GetCurrentLowered(s, MaxKeywordSize)`. -/
def vbCurrentLowered (doc : Doc) (sc : Sc) : List Nat :=
  (scCurrent doc 32 sc).map MakeLowerCase

/-- Keyword lists passed to ColouriseVBDoc (indexes at LexVB.cxx:54-68). -/
structure VbKeywordLists where
  keyword : WordList
  typeKeyword : WordList
  vbaKeyword : WordList
  preprocessor : WordList
  attr : WordList
  cls : WordList
  intf : WordList
  enumeration : WordList
  constant : WordList
  basicFunction : WordList
deriving DecidableEq

/-- The local variables of ColouriseVBDoc (LexVB.cxx:111-121) together with
the cursor and the per-line state writes performed so far; a store records
the pair of arguments of `lineState | (parenCount << 16)`. -/
structure VbCfg where
  sc : Sc
  kwType : VbKeywordType
  preprocessor : Bool
  lineState : Nat
  parenCount : Int
  fileNbDigits : Nat
  visibleChars : Nat
  chBefore : Nat
  chPrevNonWhite : Nat
  stylePrevNonWhite : Nat
  nestedState : List Int
  lineStates : List (Nat × Nat × Int)
deriving DecidableEq

/-- The packed per-line value `lineState | (parenCount << 16)` of
LexVB.cxx:413, for the non-negative counts the lexer actually stores. -/
def vbPackLineState (ls paren : Nat) : Nat := ls ||| (paren <<< 16)

/-! ### ColouriseVBDoc, one loop-body entry at a time -/

-- LexVB.cxx:141-145
def vbArmOperator (cfg : VbCfg) : VbCfg × Bool :=
  ({ cfg with sc := scSetState SCE_VB_DEFAULT cfg.sc }, false)

-- LexVB.cxx:152-157 type character / closing bracket consumption
def vbIdTypeCharSkip (lang : Language) (doc : Doc) (cfg : VbCfg) : Bool × VbCfg :=
  if byteAt doc cfg.sc.pos == 93
      || (decide (lang ≠ Language.VBScript) && IsTypeCharacter (byteAt doc cfg.sc.pos)) then
    (decide (byteAt doc cfg.sc.pos ≠ 93),
     { cfg with visibleChars := cfg.visibleChars + 1, sc := scForward cfg.sc })
  else (false, cfg)

-- LexVB.cxx:170-224: the keyword-list classification chain for the word `s`.
def vbIdWordClassify (lang : Language) (kw : VbKeywordLists) (skipType : Bool)
    (s : List Nat) (kwPrev : VbKeywordType) (chNext : Nat) (len : Nat) (cfg : VbCfg) : VbCfg :=
  if s.getD 0 0 == 91 then cfg
  else if kw.keyword.InListPrefixed s then
    let cfg := { cfg with sc := scChangeState SCE_VB_KEYWORD3 cfg.sc }
    if !skipType && cfg.chBefore != 46 then
      let cfg := { cfg with sc := scChangeState SCE_VB_KEYWORD cfg.sc }
      if s == str2bytes "if" then
        if lang == Language.VBNET && chNext == 40
            && (cfg.parenCount != 0 || 2 < cfg.visibleChars) then
          { cfg with sc := scChangeState SCE_VB_KEYWORD3 cfg.sc }
        else cfg
      else if s == str2bytes "then" then
        if cfg.preprocessor then
          { cfg with sc := scChangeState SCE_VB_PREPROCESSOR_WORD cfg.sc }
        else cfg
      else if s == str2bytes "dim" then { cfg with lineState := VBLineType_DimLine }
      else if s == str2bytes "const" then { cfg with lineState := VBLineType_ConstLine }
      else if s == str2bytes "type" then
        if cfg.visibleChars == len || kwPrev == VbKeywordType.AccessModifier then
          { cfg with lineState := VBLineType_VB6TypeLine }
        else cfg
      else if s == str2bytes "end" then { cfg with kwType := VbKeywordType.End }
      else if s == str2bytes "sub" || s == str2bytes "function" then
        if kwPrev != VbKeywordType.End then { cfg with kwType := VbKeywordType.Function }
        else cfg
      else if s == str2bytes "public" || s == str2bytes "private" then
        { cfg with kwType := VbKeywordType.AccessModifier }
      else cfg
    else cfg
  else if kw.vbaKeyword.InList s then
    let cfg := { cfg with sc := scChangeState SCE_VB_KEYWORD3 cfg.sc }
    if lang == Language.VBA && !skipType && cfg.chBefore != 46 then
      { cfg with sc := scChangeState SCE_VB_KEYWORD cfg.sc }
    else cfg
  else if kw.typeKeyword.InList s then
    { cfg with sc := scChangeState SCE_VB_KEYWORD2 cfg.sc }
  else if kw.cls.InList s then { cfg with sc := scChangeState SCE_VB_CLASS cfg.sc }
  else if kw.intf.InList s then { cfg with sc := scChangeState SCE_VB_INTERFACE cfg.sc }
  else if kw.enumeration.InList s then
    { cfg with sc := scChangeState SCE_VB_ENUM cfg.sc }
  else if kw.attr.InListPrefixed s then
    { cfg with sc := scChangeState SCE_VB_ATTRIBUTE cfg.sc }
  else if kw.constant.InList s then
    { cfg with sc := scChangeState SCE_VB_CONSTANT cfg.sc }
  else if kw.basicFunction.InListPrefixed s then
    { cfg with sc := scChangeState SCE_VB_BASIC_FUNCTION cfg.sc }
  else cfg

-- LexVB.cxx:230-239: label / function-definition retagging of a plain identifier.
def vbIdWordFinal (kwPrev : VbKeywordType) (chNext : Nat) (len : Nat) (cfg : VbCfg) : VbCfg :=
  if cfg.sc.state == SCE_VB_IDENTIFIER then
    if cfg.visibleChars == len && chNext == 58 then
      { cfg with sc := scChangeState SCE_VB_LABEL cfg.sc }
    else if kwPrev == VbKeywordType.Function then
      { cfg with sc := scChangeState SCE_VB_FUNCTION_DEFINITION cfg.sc }
    else cfg
  else cfg

-- LexVB.cxx:158-243: classification of the completed word `s` (already lowered
-- and, when a type character was skipped, shortened by one).
def vbIdentifierWord (lang : Language) (kw : VbKeywordLists) (doc : Doc) (skipType : Bool)
    (s : List Nat) (len : Nat) (cfg : VbCfg) : VbCfg × Bool :=
  if s == str2bytes "rem" then
    ({ cfg with sc := scChangeState SCE_VB_COMMENTLINE cfg.sc }, false)
  else
    let kwPrev := cfg.kwType
    let cfg := { cfg with kwType := VbKeywordType.None }
    if s.getD 0 0 == 35 then
      if kw.preprocessor.InList (s.drop 1) then
        let cfg := { cfg with preprocessor := true,
                              sc := scChangeState SCE_VB_PREPROCESSOR cfg.sc }
        let cfg :=
          if s.drop 1 == str2bytes "end" then
            { cfg with kwType := VbKeywordType.Preprocessor }
          else cfg
        ({ cfg with stylePrevNonWhite := cfg.sc.state,
                    sc := scSetState SCE_VB_DEFAULT cfg.sc }, false)
      else
        ({ cfg with sc := scChangeState SCE_VB_DATE cfg.sc }, true)
    else if kwPrev == VbKeywordType.Preprocessor then
      let cfg := { cfg with sc := scChangeState SCE_VB_PREPROCESSOR_WORD cfg.sc }
      ({ cfg with stylePrevNonWhite := cfg.sc.state,
                  sc := scSetState SCE_VB_DEFAULT cfg.sc }, false)
    else
      let chNext := scGetLineNextChar doc false cfg.sc
      let cfg := vbIdWordClassify lang kw skipType s kwPrev chNext len cfg
      let cfg := vbIdWordFinal kwPrev chNext len cfg
      ({ cfg with stylePrevNonWhite := cfg.sc.state,
                  sc := scSetState SCE_VB_DEFAULT cfg.sc }, false)

-- LexVB.cxx:147-249
def vbArmIdentifier (lang : Language) (kw : VbKeywordLists) (doc : Doc) (cfg : VbCfg) :
    VbCfg × Bool :=
  if IsIdentifierCharEx (byteAt doc cfg.sc.pos) then (cfg, false)
  else
    let st0 := vbIdTypeCharSkip lang doc cfg
    let skipType := st0.1
    let cfg := st0.2
    let s0 := vbCurrentLowered doc cfg.sc
    let len := scLengthCurrent cfg.sc
    let s := if skipType && len < 32 then s0.dropLast else s0
    vbIdentifierWord lang kw doc skipType s len cfg

-- LexVB.cxx:251-258
def vbArmNumber (lang : Language) (doc : Doc) (cfg : VbCfg) : VbCfg × Bool :=
  let p := cfg.sc.pos
  if !IsDecimalNumber (byteAt doc (p - 1)) (byteAt doc p) (byteAt doc (p + 1)) then
    let sc :=
      if decide (lang ≠ Language.VBScript) && IsTypeCharacter (byteAt doc p) then
        scForward cfg.sc
      else cfg.sc
    ({ cfg with sc := scSetState SCE_VB_DEFAULT sc }, false)
  else (cfg, false)

-- LexVB.cxx:260-298
def vbArmString (lang : Language) (doc : Doc) (cfg : VbCfg) : VbCfg × Bool :=
  let p := cfg.sc.pos
  let ch := byteAt doc p
  let chNext := byteAt doc (p + 1)
  if atLineStartPos doc p && decide (lang ≠ Language.VBNET) then
    ({ cfg with sc := scSetState SCE_VB_DEFAULT cfg.sc }, false)
  else if ch == 34 then
    if chNext == 34 then ({ cfg with sc := scForward cfg.sc }, false)
    else
      let sc := if chNext == 99 || chNext == 67 || chNext == 36 then scForward cfg.sc else cfg.sc
      ({ cfg with chPrevNonWhite := byteAt doc sc.pos,
                  sc := scForwardSetState SCE_VB_DEFAULT sc }, false)
  else if cfg.sc.state == SCE_VB_INTERPOLATED_STRING then
    if ch == 123 then
      if chNext == 123 then ({ cfg with sc := scForward cfg.sc }, false)
      else
        let sc := scForwardSetState SCE_VB_DEFAULT (scSetState SCE_VB_OPERATOR2 cfg.sc)
        ({ cfg with parenCount := cfg.parenCount + 1,
                    nestedState := 0 :: cfg.nestedState, sc := sc }, false)
    else if ch == 125 then
      match cfg.nestedState with
      | _ :: rest =>
        let sc := scForwardSetState SCE_VB_INTERPOLATED_STRING (scSetState SCE_VB_OPERATOR2 cfg.sc)
        ({ cfg with parenCount := cfg.parenCount - 1, nestedState := rest, sc := sc }, true)
      | [] =>
        if chNext == 125 then ({ cfg with sc := scForward cfg.sc }, false)
        else (cfg, false)
    else (cfg, false)
  else (cfg, false)

-- LexVB.cxx:300-314
def vbArmComment (lang : Language) (doc : Doc) (cfg : VbCfg) : VbCfg × Bool :=
  let p := cfg.sc.pos
  if atLineStartPos doc p then
    if cfg.lineState == VBLineStateLineContinuation then
      ({ cfg with lineState := VBLineType_CommentLine }, false)
    else ({ cfg with sc := scSetState SCE_VB_DEFAULT cfg.sc }, false)
  else if lang == Language.VBA && byteAt doc p == 95 && byteAt doc (p - 1) ≤ 32 then
    if scGetLineNextChar doc true cfg.sc == 0 then
      let sc := scForwardSetState SCE_VB_COMMENTLINE (scSetState SCE_VB_LINE_CONTINUATION cfg.sc)
      ({ cfg with lineState := cfg.lineState ||| VBLineStateLineContinuation, sc := sc }, false)
    else (cfg, false)
  else (cfg, false)

-- LexVB.cxx:316-332
def vbArmFileNumber (doc : Doc) (cfg : VbCfg) : VbCfg × Bool :=
  let ch := byteAt doc cfg.sc.pos
  if IsADigit ch then
    let cfg := { cfg with fileNbDigits := cfg.fileNbDigits + 1 }
    if 3 < cfg.fileNbDigits then
      ({ cfg with sc := scChangeState SCE_VB_DATE cfg.sc }, false)
    else (cfg, false)
  else if ch == 13 || ch == 10 || ch == 44 then
    ({ cfg with sc := scSetState SCE_VB_DEFAULT (scChangeState SCE_VB_NUMBER cfg.sc) }, false)
  else
    ({ cfg with sc := scChangeState SCE_VB_DATE cfg.sc }, true)

-- LexVB.cxx:334-341
def vbArmDate (doc : Doc) (cfg : VbCfg) : VbCfg × Bool :=
  let p := cfg.sc.pos
  if atLineStartPos doc p then
    ({ cfg with sc := scSetState SCE_VB_DEFAULT cfg.sc }, false)
  else if byteAt doc p == 35 then
    ({ cfg with chPrevNonWhite := 35, sc := scForwardSetState SCE_VB_DEFAULT cfg.sc }, false)
  else (cfg, false)

-- LexVB.cxx:343-348
def vbArmFormatSpecifier (doc : Doc) (cfg : VbCfg) : VbCfg × Bool :=
  if IsInvalidFormatSpecifier (byteAt doc cfg.sc.pos) then
    ({ cfg with sc := scSetState SCE_VB_INTERPOLATED_STRING cfg.sc }, true)
  else (cfg, false)

-- LexVB.cxx:377-397 (an operator character in the default state: paren
-- bookkeeping and interpolation-hole exit)
def vbOperatorChar (doc : Doc) (cfg : VbCfg) : VbCfg × Bool :=
  let ch := byteAt doc cfg.sc.pos
  let cfg := { cfg with sc := scSetState SCE_VB_OPERATOR cfg.sc }
  match cfg.nestedState with
  | [] =>
    if ch == 40 then ({ cfg with parenCount := cfg.parenCount + 1 }, false)
    else if ch == 41 && 0 < cfg.parenCount then
      ({ cfg with parenCount := cfg.parenCount - 1 }, false)
    else (cfg, false)
  | n :: rest =>
    let cfg := { cfg with sc := scChangeState SCE_VB_OPERATOR2 cfg.sc }
    let top := if ch == 40 then n + 1 else if ch == 41 then n - 1 else n
    let cfg := { cfg with nestedState := top :: rest }
    if top ≤ 0 && IsInterpolatedStringEnd doc cfg.sc then
      let st2 := if ch == 125 then SCE_VB_INTERPOLATED_STRING else SCE_VB_FORMAT_SPECIFIER
      ({ cfg with sc := scChangeState st2 cfg.sc }, true)
    else (cfg, false)

-- LexVB.cxx:351-399 (the sc.state == SCE_VB_DEFAULT block)
def vbDefaultBlock (lang : Language) (doc : Doc) (cfg : VbCfg) : VbCfg × Bool :=
  let p := cfg.sc.pos
  let ch := byteAt doc p
  let chNext := byteAt doc (p + 1)
  if ch == 39 then
    let cfg := { cfg with sc := scSetState SCE_VB_COMMENTLINE cfg.sc }
    if cfg.visibleChars == 0 then ({ cfg with lineState := VBLineType_CommentLine }, false)
    else (cfg, false)
  else if ch == 34 then
    ({ cfg with sc := scSetState SCE_VB_STRING cfg.sc }, false)
  else if lang == Language.VBNET && ch == 36 && chNext == 34 then
    ({ cfg with sc := scForward (scSetState SCE_VB_INTERPOLATED_STRING cfg.sc) }, false)
  else if ch == 35 then
    if cfg.visibleChars == 0 && decide (lang ≠ Language.VBScript)
        && IsUpperOrLowerCase chNext then
      ({ cfg with sc := scSetState SCE_VB_IDENTIFIER cfg.sc }, false)
    else
      ({ cfg with fileNbDigits := 0, sc := scSetState SCE_VB_FILENUMBER cfg.sc }, false)
  else if ch == 38 && IsVBNumberPrefixCh chNext
      && !PreferStringConcat cfg.chPrevNonWhite cfg.stylePrevNonWhite then
    ({ cfg with sc := scForward (scSetState SCE_VB_NUMBER cfg.sc) }, false)
  else if IsNumberStart ch chNext then
    ({ cfg with sc := scSetState SCE_VB_NUMBER cfg.sc }, false)
  else if ch == 95 && chNext ≤ 32 then
    ({ cfg with sc := scSetState SCE_VB_LINE_CONTINUATION cfg.sc }, false)
  else if IsIdentifierStartEx ch || ch == 91 then
    ({ cfg with chBefore := cfg.chPrevNonWhite,
                sc := scSetState SCE_VB_IDENTIFIER cfg.sc }, false)
  else if IsAGraphic ch then vbOperatorChar doc cfg
  else (cfg, false)

-- LexVB.cxx:402-419 (bottom-of-loop bookkeeping and sc.Forward())
def vbBottom (doc : Doc) (cfg : VbCfg) : VbCfg :=
  let p := cfg.sc.pos
  let ch := byteAt doc p
  let cfg :=
    if !isspacechar ch then
      let cfg := { cfg with visibleChars := cfg.visibleChars + 1 }
      if !vbIsSpaceEquiv cfg.sc.state then
        { cfg with chPrevNonWhite := ch, stylePrevNonWhite := cfg.sc.state }
      else cfg
    else cfg
  let cfg :=
    if atLineEndPos doc p then
      let ls :=
        if !cfg.nestedState.isEmpty then cfg.lineState ||| VBLineStateStringInterpolation
        else cfg.lineState
      { cfg with lineStates := (lineOf doc p, ls, cfg.parenCount) :: cfg.lineStates,
                 lineState := ls &&& VBLineStateLineContinuation,
                 visibleChars := 0, kwType := VbKeywordType.None, preprocessor := false }
    else cfg
  { cfg with sc := scForward cfg.sc }

/-- The switch of LexVB.cxx:140-349, dispatching on sc.state. -/
def vbSwitch (lang : Language) (kw : VbKeywordLists) (doc : Doc) (cfg : VbCfg) : VbCfg × Bool :=
  let st := cfg.sc.state
  if st == SCE_VB_OPERATOR || st == SCE_VB_OPERATOR2 || st == SCE_VB_LINE_CONTINUATION then
    vbArmOperator cfg
  else if st == SCE_VB_IDENTIFIER then vbArmIdentifier lang kw doc cfg
  else if st == SCE_VB_NUMBER then vbArmNumber lang doc cfg
  else if st == SCE_VB_STRING || st == SCE_VB_INTERPOLATED_STRING then vbArmString lang doc cfg
  else if st == SCE_VB_COMMENTLINE then vbArmComment lang doc cfg
  else if st == SCE_VB_FILENUMBER then vbArmFileNumber doc cfg
  else if st == SCE_VB_DATE then vbArmDate doc cfg
  else if st == SCE_VB_FORMAT_SPECIFIER then vbArmFormatSpecifier doc cfg
  else (cfg, false)

/-- One entry of the while-loop body of ColouriseVBDoc. -/
def vbStep (lang : Language) (kw : VbKeywordLists) (doc : Doc) (cfg : VbCfg) : VbCfg :=
  match vbSwitch lang kw doc cfg with
  | (cfg, true) => cfg
  | (cfg, false) =>
    match (if cfg.sc.state == SCE_VB_DEFAULT then vbDefaultBlock lang doc cfg
           else (cfg, false)) with
    | (cfg, true) => cfg
    | (cfg, false) => vbBottom doc cfg

/-- Fuel-driven iteration of the loop while `sc.More()`. -/
def vbRun (lang : Language) (kw : VbKeywordLists) (doc : Doc) : Nat → VbCfg → VbCfg
  | 0, cfg => cfg
  | fuel + 1, cfg =>
    if cfg.sc.pos < doc.length then vbRun lang kw doc fuel (vbStep lang kw doc cfg) else cfg

/-- The initial local variables of ColouriseVBDoc (LexVB.cxx:111-121). -/
def vbInitCfg (startPos initStyle : Nat) : VbCfg := {
  sc := { pos := startPos, state := initStyle, runStart := startPos, runs := [] },
  kwType := VbKeywordType.None, preprocessor := false, lineState := 0, parenCount := 0,
  fileNbDigits := 0, visibleChars := 0, chBefore := 0, chPrevNonWhite := 0,
  stylePrevNonWhite := SCE_VB_DEFAULT, nestedState := [], lineStates := [] }

/-- ColouriseVBDoc over the whole document starting from position 0. -/
def ColouriseVBDoc0 (lang : Language) (kw : VbKeywordLists) (doc : Doc) : VbCfg :=
  let cfg := vbInitCfg 0 0
  let cfg := vbRun lang kw doc (csFuel doc) cfg
  { cfg with sc := scComplete cfg.sc }

/-! ### Fold levels (spec section 6.5) -/

def SC_FOLDLEVELBASE : Nat := 1024
def SC_FOLDLEVELHEADERFLAG : Nat := 8192

/-- Modelled from the spec (section 4.4): "if a line ends without an opener
but the next line begins (after whitespace/task markers) with a brace, treat
that brace as if it appeared on the current line"; returns the position of
that brace, or 0. -/
def CheckBraceOnNextLine (doc : Doc) (runs : List StyleRun) (line : Nat) : Nat :=
  let lstart := lineStartPos doc line
  let nstart := lineStartPos doc (line + 1)
  let lastB := ((doc.drop lstart).take (nstart - lstart)).filter (fun b => !isspacechar b)
  match lastB.getLast? with
  | none => 0
  | some b =>
    if b == 123 || b == 40 || b == 91 || b == 44 then 0
    else
      let nstop := nextLineStart doc nstart
      let rest := (List.range' nstart (nstop - nstart)).dropWhile (fun q =>
        isspacechar (byteAt doc q) || styleAt runs q == SCE_CSHARP_TASKMARKER)
      match rest with
      | q :: _ =>
        if byteAt doc q == 123 && styleAt runs q == SCE_CSHARP_OPERATOR then q else 0
      | [] => 0

/-- FoldLineState of LexCSharp.cxx:761-768 is inlined below as the pair
(lineComment, usingName) of bits 0 and 1 of a stored per-line state. -/
structure CsFoldCfg where
  pos : Nat
  lineCurrent : Nat
  levelCurrent : Int
  levelNext : Int
  foldPrevLC : Nat
  foldPrevUN : Nat
  foldCurLC : Nat
  foldCurUN : Nat
  lineStartNext : Nat
  buf : List Nat
  visibleChars : Nat
  levels : List (Nat × Int × Int × Bool)

/-- One entry of the while-loop body of FoldCSharpDoc (LexCSharp.cxx:797-882).
A stored level records the line, the low half `levelUse`, the high half
`levelNext` and the header flag. -/
def csFoldLevelPhase (doc : Doc) (runs : List StyleRun) (cfg : CsFoldCfg) : CsFoldCfg :=
  let i := cfg.pos
  let style := styleAt runs i
  let stylePrev := if i == 0 then 0 else styleAt runs (i - 1)
  let styleNext := styleAt runs (i + 1)
  let cfg :=
    if style == SCE_CSHARP_COMMENTBLOCK || style == SCE_CSHARP_COMMENTBLOCKDOC
        || style == SCE_CSHARP_VERBATIM_STRING || style == SCE_CSHARP_INTERPOLATED_VERBATIM_STRING
        || style == SCE_CSHARP_RAWSTRING_ML || style == SCE_CSHARP_INTERPOLATED_RAWSTRING_ML then
      let l := if style != stylePrev then cfg.levelNext + 1 else cfg.levelNext
      let l := if style != styleNext then l - 1 else l
      { cfg with levelNext := l }
    else if style == SCE_CSHARP_OPERATOR || style == SCE_CSHARP_OPERATOR2 then
      let ch := byteAt doc i
      if ch == 123 || ch == 91 || ch == 40 then { cfg with levelNext := cfg.levelNext + 1 }
      else if ch == 125 || ch == 93 || ch == 41 then { cfg with levelNext := cfg.levelNext - 1 }
      else cfg
    else if style == SCE_CSHARP_PREPROCESSOR then
      let buf := if cfg.buf.length < 11 then cfg.buf ++ [byteAt doc i] else cfg.buf
      if styleNext != style then
        let t := if buf.getD 0 0 == 35 then buf.drop 1 else buf
        let l :=
          if t == str2bytes "if" || t == str2bytes "region" then cfg.levelNext + 1
          else if t.take 3 == str2bytes "end" then cfg.levelNext - 1
          else cfg.levelNext
        { cfg with buf := [], levelNext := l }
      else { cfg with buf := buf }
    else cfg
  if cfg.visibleChars == 0 && !csIsSpaceEquiv style then
    { cfg with visibleChars := cfg.visibleChars + 1 }
  else cfg

def csFoldStep (doc : Doc) (runs : List StyleRun) (getLS : Nat → Nat) (endPos : Nat)
    (cfg : CsFoldCfg) : CsFoldCfg :=
  let i := cfg.pos
  let cfg := csFoldLevelPhase doc runs cfg
  let newPos := i + 1
  if newPos == cfg.lineStartNext then
    let foldNextLS := getLS (cfg.lineCurrent + 1)
    let foldNextLC := foldNextLS &&& 1
    let foldNextUN := (foldNextLS >>> 1) &&& 1
    let levelNext := max cfg.levelNext (SC_FOLDLEVELBASE : Int)
    let bs : Int × Nat :=
      if cfg.foldCurLC != 0 then
        (levelNext + ((foldNextLC : Int) - (cfg.foldPrevLC : Int)), newPos)
      else if cfg.foldCurUN != 0 then
        (levelNext + ((foldNextUN : Int) - (cfg.foldPrevUN : Int)), newPos)
      else if cfg.visibleChars != 0 then
        let bracePos := CheckBraceOnNextLine doc runs cfg.lineCurrent
        if bracePos != 0 then (levelNext + 1, bracePos + 1) else (levelNext, newPos)
      else (levelNext, newPos)
    let levelUse := cfg.levelCurrent
    { cfg with pos := bs.2,
               levels := (cfg.lineCurrent, levelUse, bs.1, decide (levelUse < bs.1)) :: cfg.levels,
               lineCurrent := cfg.lineCurrent + 1,
               lineStartNext := min (lineStartPos doc (cfg.lineCurrent + 2)) endPos,
               levelCurrent := bs.1,
               foldPrevLC := cfg.foldCurLC, foldPrevUN := cfg.foldCurUN,
               foldCurLC := foldNextLC, foldCurUN := foldNextUN,
               visibleChars := 0 }
  else { cfg with pos := newPos }

/-- Fuel-driven iteration of the fold loop while startPos < endPos. -/
def csFoldRun (doc : Doc) (runs : List StyleRun) (getLS : Nat → Nat) (endPos : Nat) :
    Nat → CsFoldCfg → CsFoldCfg
  | 0, cfg => cfg
  | fuel + 1, cfg =>
    if cfg.pos < endPos then csFoldRun doc runs getLS endPos fuel (csFoldStep doc runs getLS endPos cfg)
    else cfg

/-- FoldCSharpDoc over the whole document starting from position 0
(LexCSharp.cxx:770-795 initialisation with lineCurrent = 0). -/
def FoldCSharpDoc0 (doc : Doc) (runs : List StyleRun) (getLS : Nat → Nat) : CsFoldCfg :=
  let ls0 := getLS 0
  let cfg : CsFoldCfg := {
    pos := 0, lineCurrent := 0, levelCurrent := (SC_FOLDLEVELBASE : Int),
    levelNext := (SC_FOLDLEVELBASE : Int),
    foldPrevLC := 0, foldPrevUN := 0,
    foldCurLC := ls0 &&& 1, foldCurUN := (ls0 >>> 1) &&& 1,
    lineStartNext := min (lineStartPos doc 1) doc.length,
    buf := [], visibleChars := 0, levels := [] }
  csFoldRun doc runs getLS doc.length (csFuel doc) cfg

/-! ### FoldVBDoc (LexVB.cxx:425-646) -/

-- LexVB.cxx:425-429
def VBMatchNextWord (doc : Doc) (startPos endPos : Nat) (w : List Nat) : Bool :=
  let pos := LexSkipSpaceTab doc startPos endPos
  isspacechar (byteAt doc (pos + w.length)) && MatchLowerCase doc pos w

/-- The scan loop of IsVBProperty (LexVB.cxx:430-451). -/
def vbPropertyScan (doc : Doc) (runs : List StyleRun) (endPos : Nat) :
    Nat → Nat → Bool → Nat
  | 0, _, _ => 0
  | fuel + 1, i, visible =>
    if i < endPos then
      let ch := UnsafeLower (byteAt doc i)
      let style := styleAt runs i
      if style == SCE_VB_OPERATOR && ch == 40 then 1
      else if style == SCE_VB_KEYWORD && !visible
          && (ch == 103 || ch == 108 || ch == 115)
          && UnsafeLower (byteAt doc (i + 1)) == 101
          && UnsafeLower (byteAt doc (i + 2)) == 116
          && isspacechar (byteAt doc (i + 3)) then 2
      else vbPropertyScan doc runs endPos fuel (i + 1) (visible || 32 < ch)
    else 0

-- LexVB.cxx:430-451 (returns 0, 1 or 2 like the C int)
def IsVBProperty (doc : Doc) (runs : List StyleRun) (line startPos : Nat) : Nat :=
  let endPos := lineStartPos doc (line + 1) - 1
  vbPropertyScan doc runs endPos (endPos - startPos) startPos false

structure VbFoldCfg where
  pos : Nat
  lineCurrent : Nat
  levelCurrent : Int
  levelNext : Int
  foldPrevLS : Nat
  foldCurLS : Nat
  lineStartNext : Nat
  visibleChars : Nat
  numBegin : Nat
  isEnd : Bool
  isInterface : Bool
  isProperty : Bool
  isCustom : Bool
  isExit : Bool
  isDeclare : Bool
  ifThenMask : Nat
  levels : List (Nat × Int × Int × Bool)

/-- The keyword chain of FoldVBDoc (LexVB.cxx:498-601), entered when the
byte at `i` starts a keyword-styled span. -/
def vbFoldKeyword (doc : Doc) (runs : List StyleRun) (endPos i : Nat) (cfg : VbFoldCfg) :
    VbFoldCfg :=
  let m := fun (w : String) => MatchLowerCase doc i (str2bytes w)
  let mNext := fun (p : Nat) (w : String) => VBMatchNextWord doc p endPos (str2bytes w)
  if cfg.visibleChars == 0 && (m "for" || (m "do" && isspacechar (byteAt doc (i + 2)))
      || m "while" || (m "try" && isspacechar (byteAt doc (i + 3)))
      || (m "select" && mNext (i + 6) "case")
      || (m "with" && isspacechar (byteAt doc (i + 4)))
      || m "namespace" || m "synclock" || m "using"
      || (cfg.isProperty && (m "set" || (m "get" && isspacechar (byteAt doc (i + 3)))))
      || (cfg.isCustom && (m "raiseevent" || m "addhandler" || m "removehandler"))) then
    { cfg with levelNext := cfg.levelNext + 1 }
  else if cfg.visibleChars == 0 && (m "next" || m "loop" || m "wend") then
    { cfg with levelNext := cfg.levelNext - 1 }
  else if m "exit" && (mNext (i + 4) "function" || mNext (i + 4) "sub"
      || mNext (i + 4) "property") then
    { cfg with isExit := true }
  else if m "begin" then
    let cfg := { cfg with levelNext := cfg.levelNext + 1 }
    if isspacechar (byteAt doc (i + 5)) then { cfg with numBegin := cfg.numBegin + 1 } else cfg
  else if m "end" then
    let cfg := { cfg with levelNext := cfg.levelNext - 1 }
    let chEnd0 := byteAt doc (i + 3)
    let ce : Nat × Bool :=
      if chEnd0 == 32 || chEnd0 == 9 then
        let pos := LexSkipSpaceTab doc (i + 3) endPos
        let chEnd := byteAt doc pos
        if IsAlpha chEnd && (mNext pos "function" || mNext pos "sub"
            || mNext pos "if" || mNext pos "class" || mNext pos "structure"
            || mNext pos "module" || mNext pos "enum" || mNext pos "interface"
            || mNext pos "operator" || mNext pos "property" || mNext pos "event"
            || mNext pos "type") then
          (chEnd, true)
        else (chEnd, cfg.isEnd)
      else (chEnd0, cfg.isEnd)
    let cfg : VbFoldCfg := { cfg with isEnd := ce.2 }
    let cfg : VbFoldCfg :=
      if ce.1 == 13 || ce.1 == 10 || ce.1 == 39 then
        let cfg : VbFoldCfg := { cfg with isEnd := false }
        let cfg : VbFoldCfg :=
          if cfg.numBegin == 0 then { cfg with levelNext := cfg.levelNext + 1 } else cfg
        if 0 < cfg.numBegin then { cfg with numBegin := cfg.numBegin - 1 } else cfg
      else cfg
    let cfg :=
      if cfg.ifThenMask == 3 then { cfg with levelNext := cfg.levelNext + 1 } else cfg
    { cfg with ifThenMask := 0 }
  else if m "if" then
    if cfg.isEnd then { cfg with isEnd := false }
    else { cfg with ifThenMask := 1, levelNext := cfg.levelNext + 1 }
  else if m "then" then
    if cfg.ifThenMask &&& 1 != 0 then
      let cfg := { cfg with ifThenMask := cfg.ifThenMask ||| 2 }
      let pos := LexSkipSpaceTab doc (i + 4) endPos
      let chEnd := byteAt doc pos
      if !(chEnd == 13 || chEnd == 10 || chEnd == 39) then
        { cfg with levelNext := cfg.levelNext - 1 }
      else cfg
    else cfg
  else if (!cfg.isInterface && (m "class" || m "structure"))
      || m "module" || m "enum" || m "operator" then
    if cfg.isEnd then { cfg with isEnd := false }
    else { cfg with levelNext := cfg.levelNext + 1 }
  else if m "interface" then
    let cfg :=
      if !(cfg.isEnd || cfg.isInterface) then { cfg with levelNext := cfg.levelNext + 1 }
      else cfg
    let cfg := { cfg with isInterface := true }
    if cfg.isEnd then { cfg with isEnd := false, isInterface := false } else cfg
  else if m "declare" || m "delegate" then
    { cfg with isDeclare := true }
  else if !cfg.isInterface && (m "sub" || m "function") then
    let cfg :=
      if !(cfg.isEnd || cfg.isExit || cfg.isDeclare) then
        { cfg with levelNext := cfg.levelNext + 1 }
      else cfg
    let cfg := if cfg.isEnd then { cfg with isEnd := false } else cfg
    let cfg := if cfg.isExit then { cfg with isExit := false } else cfg
    if cfg.isDeclare then { cfg with isDeclare := false } else cfg
  else if !cfg.isInterface && m "property" then
    let cfg := { cfg with isProperty := true }
    let cfg :=
      if !(cfg.isEnd || cfg.isExit) then
        let result := IsVBProperty doc runs cfg.lineCurrent (i + 8)
        let cfg :=
          if result != 0 then { cfg with levelNext := cfg.levelNext + 1 } else cfg
        { cfg with isProperty := result % 2 == 1 }
      else cfg
    let cfg := if cfg.isEnd then { cfg with isEnd := false, isProperty := false } else cfg
    if cfg.isExit then { cfg with isExit := false } else cfg
  else if m "custom" then
    { cfg with isCustom := true }
  else if !cfg.isInterface && cfg.isCustom && m "event" then
    if cfg.isEnd then { cfg with isEnd := false, isCustom := false }
    else { cfg with levelNext := cfg.levelNext + 1 }
  else if m "type" && isspacechar (byteAt doc (i + 4)) then
    let cfg :=
      if !cfg.isEnd && (cfg.foldCurLS &&& VBLineType_VB6TypeLine) != 0 then
        { cfg with levelNext := cfg.levelNext + 1 }
      else cfg
    if cfg.isEnd then { cfg with isEnd := false } else cfg
  else cfg

/-- One entry of the while-loop body of FoldVBDoc (LexVB.cxx:491-645). -/
def vbFoldLinePhase (doc : Doc) (runs : List StyleRun) (endPos : Nat)
    (cfg : VbFoldCfg) : VbFoldCfg :=
  let i := cfg.pos
  let style := styleAt runs i
  let stylePrev := if i == 0 then 0 else styleAt runs (i - 1)
  let ch := byteAt doc i
  let cfg :=
    if style == SCE_VB_KEYWORD && stylePrev != SCE_VB_KEYWORD then
      vbFoldKeyword doc runs endPos i cfg
    else if style == SCE_VB_PREPROCESSOR && stylePrev != SCE_VB_PREPROCESSOR then
      if MatchLowerCase doc i (str2bytes "#if") || MatchLowerCase doc i (str2bytes "#region")
          || MatchLowerCase doc i (str2bytes "#externalsource") then
        { cfg with levelNext := cfg.levelNext + 1 }
      else if MatchLowerCase doc i (str2bytes "#end") then
        { cfg with levelNext := cfg.levelNext - 1 }
      else cfg
    else if style == SCE_VB_OPERATOR then
      if ch == 123 then { cfg with levelNext := cfg.levelNext + 1 }
      else if ch == 125 then { cfg with levelNext := cfg.levelNext - 1 }
      else cfg
    else cfg
  if cfg.visibleChars == 0 && !isspacechar ch then
    { cfg with visibleChars := cfg.visibleChars + 1 }
  else cfg

def vbFoldStep (doc : Doc) (runs : List StyleRun) (getLS : Nat → Nat) (endPos : Nat)
    (cfg : VbFoldCfg) : VbFoldCfg :=
  let i := cfg.pos
  let cfg := vbFoldLinePhase doc runs endPos cfg
  let newPos := i + 1
  if newPos == cfg.lineStartNext then
    let foldNextLS := getLS (cfg.lineCurrent + 1)
    let levelNext := max cfg.levelNext (SC_FOLDLEVELBASE : Int)
    let curType := cfg.foldCurLS &&& 3
    let levelNext :=
      if curType != 0 then
        let l := if curType != (cfg.foldPrevLS &&& 3) then levelNext + 1 else levelNext
        if curType != (foldNextLS &&& 3) then l - 1 else l
      else levelNext
    let levelUse := cfg.levelCurrent
    { cfg with pos := newPos,
               levels := (cfg.lineCurrent, levelUse, levelNext, decide (levelUse < levelNext))
                 :: cfg.levels,
               lineCurrent := cfg.lineCurrent + 1,
               lineStartNext := lineStartPos doc (cfg.lineCurrent + 2),
               levelCurrent := levelNext,
               foldPrevLS := cfg.foldCurLS, foldCurLS := foldNextLS,
               visibleChars := 0, ifThenMask := 0 }
  else { cfg with pos := newPos }

/-- Fuel-driven iteration of the VB fold loop. -/
def vbFoldRun (doc : Doc) (runs : List StyleRun) (getLS : Nat → Nat) (endPos : Nat) :
    Nat → VbFoldCfg → VbFoldCfg
  | 0, cfg => cfg
  | fuel + 1, cfg =>
    if cfg.pos < endPos then vbFoldRun doc runs getLS endPos fuel (vbFoldStep doc runs getLS endPos cfg)
    else cfg

/-- FoldVBDoc over the whole document starting from position 0
(LexVB.cxx:464-489 initialisation with lineCurrent = 0). -/
def FoldVBDoc0 (doc : Doc) (runs : List StyleRun) (getLS : Nat → Nat) : VbFoldCfg :=
  let cfg : VbFoldCfg := {
    pos := 0, lineCurrent := 0, levelCurrent := (SC_FOLDLEVELBASE : Int),
    levelNext := (SC_FOLDLEVELBASE : Int),
    foldPrevLS := 0, foldCurLS := getLS 0,
    lineStartNext := lineStartPos doc 1,
    visibleChars := 0, numBegin := 0, isEnd := false, isInterface := false,
    isProperty := false, isCustom := false, isExit := false, isDeclare := false,
    ifThenMask := 0, levels := [] }
  vbFoldRun doc runs getLS doc.length (csFuel doc) cfg

/-- The stored line-state values of a VB lex as a line-indexed function
(the low half that FoldVBDoc inspects; bits 16 and up hold the paren count). -/
def vbGetLS (cfg : VbCfg) (ln : Nat) : Nat :=
  match cfg.lineStates.find? (fun e => e.1 == ln) with
  | some e => e.2.1
  | none => 0

/-! ### Concrete instances used by the theorems below -/

/-- The empty keyword list. -/
def emptyWL : WordList := ⟨[]⟩

/-- LangC keyword lists with every list empty. -/
def csNoKw : CsKeywordLists :=
  ⟨emptyWL, emptyWL, emptyWL, emptyWL, emptyWL, emptyWL, emptyWL, emptyWL, emptyWL, emptyWL⟩

/-- LangC keyword lists whose main list holds only the word class. -/
def csKwClass : CsKeywordLists := { csNoKw with keyword := ⟨[str2bytes "class"]⟩ }

/-- LangB keyword lists with every list empty. -/
def vbNoKw : VbKeywordLists :=
  ⟨emptyWL, emptyWL, emptyWL, emptyWL, emptyWL, emptyWL, emptyWL, emptyWL, emptyWL, emptyWL⟩

/-- LangB keyword lists whose main list holds only the word type. -/
def vbKwType : VbKeywordLists := { vbNoKw with keyword := ⟨[str2bytes "type"]⟩ }

/-- LangB keyword lists whose main list holds only the word dim. -/
def vbKwDim : VbKeywordLists := { vbNoKw with keyword := ⟨[str2bytes "dim"]⟩ }

/-- LangB keyword lists for the single-line If-Then scenario. -/
def vbKwIfThen : VbKeywordLists :=
  { vbNoKw with keyword := ⟨[str2bytes "if", str2bytes "then", str2bytes "else"]⟩ }

/-- Length of the run of `"` bytes starting at `p`. -/
def quoteRun (doc : Doc) (p : Nat) : Nat :=
  ((doc.drop p).takeWhile (fun b => b == 34)).length

/-- The C1 document, verbatim string then a call: `@"a"` LF `M()`. -/
def c1doc : Doc := [64, 34, 97, 34, 10, 77, 40, 41]

/-- The C2 document: a raw string opened by 3 quotes, then a run of 4:
three quotes, `a`, four quotes, `b`. -/
def c2doc : Doc := [34, 34, 34, 97, 34, 34, 34, 34, 98]

/-- A second C2 document: a raw string `"""a""b"""` followed by `c` (a
shorter 2-quote run inside, then the exact 3-quote closer). -/
def c2doc2 : Doc := [34, 34, 34, 97, 34, 34, 98, 34, 34, 34, 99]

/-- A third C2 document: a multi-line raw string `"""` LF `a"""b` whose
exact 3-quote run sits mid-line, after visible content. -/
def c2doc3 : Doc := [34, 34, 34, 10, 97, 34, 34, 34, 98]

/-- The C4 document: `Type T`. -/
def c4doc : Doc := str2bytes "Type T"

/-- The C5 document: `x #27, Oct, 2003#` (the date form named in the
source's own comment at LexVB.cxx:323). -/
def c5doc : Doc := str2bytes "x #27, Oct, 2003#"

/-- The C7 document: `If a Then b Else c`. -/
def c7doc : Doc := str2bytes "If a Then b Else c"

/-- A concrete fold configuration for the C7 If-step fact: at the start of
the line, nothing folded yet. -/
def c7cfgA : VbFoldCfg := {
  pos := 0, lineCurrent := 0, levelCurrent := 1024, levelNext := 1024,
  foldPrevLS := 0, foldCurLS := 0, lineStartNext := 18, visibleChars := 0, numBegin := 0,
  isEnd := false, isInterface := false, isProperty := false, isCustom := false, isExit := false,
  isDeclare := false, ifThenMask := 0, levels := [] }

/-- A concrete fold configuration for the C7 Then-step fact: mid-line,
after the If has set bit 0 of the mask. -/
def c7cfgB : VbFoldCfg := { c7cfgA with ifThenMask := 1, visibleChars := 1 }

/-- The C10 document: a run of dim lines with an unmatched closing brace
inside the run, then a plain line. -/
def c10doc : Doc := str2bytes "Dim a\nDim b\x7d\nDim c\nx"

/-- A configuration for the C6 witness: single-line string state at the
start of the second line of `"a` LF `b"`. -/
def c6cfg : CsCfg := { csInitCfg 3 SCE_CSHARP_STRING with sc := { pos := 3, state := SCE_CSHARP_STRING, runStart := 0, runs := [] } }

/-- The C6 witness document `"a` LF `b"`. -/
def c6doc : Doc := [34, 97, 10, 98, 34]

/-- A configuration for the C6 latch witness: default state inside an open
interpolation hole, at a closing brace. -/
def c6cfg2 : CsCfg :=
  { csInitCfg 0 SCE_CSHARP_DEFAULT with
    nestedState := [⟨SCE_CSHARP_INTERPOLATED_STRING, 0, 0, 1⟩] }

/-- Values the lineState local of ColouriseVBDoc takes between line ends:
below 16 (bits 0-2 hold the line type, at most 4, and bit 3 the
continuation flag). -/
def vbLineStateOK (x : Nat) : Prop := x < 16 ∧ x &&& 7 ≤ 4

/-- Shape of a stored per-line record `(line, lineState, parenCount)`: the
lineState half is below 32 with line-type at most 4, and the paren count is
non-negative. -/
def vbStoreOK (e : Nat × Nat × Int) : Prop :=
  e.2.1 < 32 ∧ e.2.1 &&& 7 ≤ 4 ∧ 0 ≤ e.2.2

/-- The run invariant of ColouriseVBDoc: the paren counter dominates the
number of open interpolation holes (hence never goes negative), the
lineState local is well-shaped, and every stored per-line record is
well-shaped. -/
def vbLexInv (cfg : VbCfg) : Prop :=
  (cfg.nestedState.length : Int) ≤ cfg.parenCount
  ∧ vbLineStateOK cfg.lineState
  ∧ ∀ e ∈ cfg.lineStates, vbStoreOK e

/-- Fold-run invariant of FoldCSharpDoc: the carried current level and
every stored half are at least `SC_FOLDLEVELBASE - 1`, and the per-line
comment/using bits are single bits. -/
def csFoldInv (cfg : CsFoldCfg) : Prop :=
  (SC_FOLDLEVELBASE : Int) - 1 ≤ cfg.levelCurrent
  ∧ cfg.foldPrevLC ≤ 1 ∧ cfg.foldPrevUN ≤ 1 ∧ cfg.foldCurLC ≤ 1 ∧ cfg.foldCurUN ≤ 1
  ∧ ∀ e ∈ cfg.levels,
      (SC_FOLDLEVELBASE : Int) - 1 ≤ e.2.1 ∧ (SC_FOLDLEVELBASE : Int) - 1 ≤ e.2.2.1

/-- Fold-run invariant of FoldVBDoc: the carried current level and every
stored half are at least `SC_FOLDLEVELBASE - 1`. -/
def vbFoldInv (cfg : VbFoldCfg) : Prop :=
  (SC_FOLDLEVELBASE : Int) - 1 ≤ cfg.levelCurrent
  ∧ ∀ e ∈ cfg.levels,
      (SC_FOLDLEVELBASE : Int) - 1 ≤ e.2.1 ∧ (SC_FOLDLEVELBASE : Int) - 1 ≤ e.2.2.1

/-! ## Theorems -/

/-- Helper: a bitwise or with a shifted value is an addition when the low
part fits below the shift. -/
theorem lor_mul_two_pow_eq_add (k : Nat) :
    ∀ a b : Nat, a < 2 ^ k → a ||| b * 2 ^ k = a + b * 2 ^ k := by
  induction k with
  | zero =>
    intro a b h
    interval_cases a
    simp
  | succ k ih =>
    intro a b h
    have ha : Nat.bit a.bodd a.div2 = a := Nat.bit_decomp a
    have hb : Nat.bit false (b * 2 ^ k) = b * 2 ^ (k + 1) := by
      rw [Nat.bit_val]
      simp [Nat.pow_succ]
      ring
    rw [← ha, ← hb, Nat.lor_bit]
    have h2 : a.div2 < 2 ^ k := by
      have hv := Nat.bit_val a.bodd a.div2
      rw [ha] at hv
      have hp : (2 : Nat) ^ (k + 1) = 2 ^ k * 2 := Nat.pow_succ 2 k
      cases hB : a.bodd <;> rw [hB] at hv <;> simp [Bool.toNat] at hv <;> omega
    rw [Bool.or_false, ih a.div2 b h2]
    rw [Nat.bit_val, Nat.bit_val]
    cases a.bodd <;> simp [Bool.toNat] <;> ring

/-- Helper: the low-16/high-16 split of the packed LangB per-line value. -/
theorem vbPackLineState_eq_add (ls paren : Nat) (h : ls < 65536) :
    vbPackLineState ls paren = ls + paren * 65536 := by
  have : (65536 : Nat) = 2 ^ 16 := by norm_num
  rw [vbPackLineState, Nat.shiftLeft_eq, this, lor_mul_two_pow_eq_add 16 ls paren (by omega)]

/-- C1: the resumption guarantee fails on LexCSharp.  After a full lex of
the document `@"a"` LF `M()`, resuming at the start of the second line with
the stored styles and per-line states gives `M` the plain function style,
while the full lex gives it the function-definition style: the full lex
keeps the last content byte of the verbatim string as its previous
significant byte, while the resumed lex recovers the closing quote from the
style buffer.  Both runs complete and agree on every stored line state. -/
theorem c1_resumption_divergence :
    (ColouriseCSharpDoc0 csNoKw emptyWL c1doc).sc.pos = 8
    ∧ (ColouriseCSharpDocFrom csNoKw emptyWL c1doc 5
        (ColouriseCSharpDoc0 csNoKw emptyWL c1doc).sc.runs
        (ColouriseCSharpDoc0 csNoKw emptyWL c1doc).lineStates).sc.pos = 8
    ∧ atLineStartPos c1doc 5 = true
    ∧ getLineState (ColouriseCSharpDocFrom csNoKw emptyWL c1doc 5
        (ColouriseCSharpDoc0 csNoKw emptyWL c1doc).sc.runs
        (ColouriseCSharpDoc0 csNoKw emptyWL c1doc).lineStates).lineStates 1
      = getLineState (ColouriseCSharpDoc0 csNoKw emptyWL c1doc).lineStates 1
    ∧ styleAt (ColouriseCSharpDoc0 csNoKw emptyWL c1doc).sc.runs 5
      = SCE_CSHARP_FUNCTION_DEFINITION
    ∧ styleAt (ColouriseCSharpDocFrom csNoKw emptyWL c1doc 5
        (ColouriseCSharpDoc0 csNoKw emptyWL c1doc).sc.runs
        (ColouriseCSharpDoc0 csNoKw emptyWL c1doc).lineStates).sc.runs 5
      = SCE_CSHARP_FUNCTION
    ∧ SCE_CSHARP_FUNCTION_DEFINITION ≠ SCE_CSHARP_FUNCTION := by
  decide

/-- C2 counterexample: in the document holding a raw string opened by
k = 3 quotes, content `a`, then a maximal run of 4 quotes and `b`, the
lexer ends the raw string inside the 4-quote run (the byte `b` after it is
lexed as an identifier in the default state), although 4 is a longer run
than the opening delimiter count; the claim says a string never ends at a
longer run. -/
theorem c2_raw_delimiter_counterexample :
    quoteRun c2doc 0 = 3 ∧ quoteRun c2doc 4 = 4
    ∧ styleAt (ColouriseCSharpDoc0 csNoKw emptyWL c2doc).sc.runs 7 = SCE_CSHARP_RAWSTRING_SL
    ∧ styleAt (ColouriseCSharpDoc0 csNoKw emptyWL c2doc).sc.runs 8 = SCE_CSHARP_IDENTIFIER
    ∧ SCE_CSHARP_IDENTIFIER ≠ SCE_CSHARP_RAWSTRING_SL
    ∧ (ColouriseCSharpDoc0 csNoKw emptyWL c2doc).sc.state = SCE_CSHARP_IDENTIFIER := by
  decide

/-- C4 counterexample: lexing `Type T` stores the per-line state 4 with
paren depth 0; the line-type value 4 (VB6 Type line) does not fit in bits
0-1 of the packed value, whose bits 0-1 read back 0, not 4. -/
theorem c4_linestate_packing_counterexample :
    (ColouriseVBDoc0 Language.VBA vbKwType c4doc).lineStates = [(0, VBLineType_VB6TypeLine, 0)]
    ∧ vbPackLineState VBLineType_VB6TypeLine 0 &&& 3 = 0
    ∧ (0 : Nat) ≠ VBLineType_VB6TypeLine := by
  decide

/-- C5 counterexample: in `x #27, Oct, 2003#` the hash is not at column 0
and the bracketed text is a date form (the very form named in the source's
comment), yet the lexer styles `#27` as a number (file-number scanning
applies at any column when the hash is not a preprocessor start), not as a
date. -/
theorem c5_date_literal_counterexample :
    byteAt c5doc 2 = 35 ∧ atLineStartPos c5doc 2 = false ∧ byteAt c5doc 16 = 35
    ∧ styleAt (ColouriseVBDoc0 Language.VBA vbNoKw c5doc).sc.runs 2 = SCE_VB_NUMBER
    ∧ styleAt (ColouriseVBDoc0 Language.VBA vbNoKw c5doc).sc.runs 3 = SCE_VB_NUMBER
    ∧ SCE_VB_NUMBER ≠ SCE_VB_DATE := by
  decide

/-- C10 counterexample: lexing and folding the document
`Dim a` LF `Dim b}` LF `Dim c` LF `x` stores for the third line the fold
value whose high half (the next line's level) is SC_FOLDLEVELBASE - 1, and
for the fourth line a low half of SC_FOLDLEVELBASE - 1: the clamp runs
before the soft-group line-type adjustment, so the stored levels drop below
the base. -/
theorem c10_fold_level_counterexample :
    ((2 : Nat), (1024 : Int), (1023 : Int), false)
      ∈ (FoldVBDoc0 c10doc (ColouriseVBDoc0 Language.VBA vbKwDim c10doc).sc.runs
          (vbGetLS (ColouriseVBDoc0 Language.VBA vbKwDim c10doc))).levels
    ∧ ((3 : Nat), (1023 : Int), (1024 : Int), true)
      ∈ (FoldVBDoc0 c10doc (ColouriseVBDoc0 Language.VBA vbKwDim c10doc).sc.runs
          (vbGetLS (ColouriseVBDoc0 Language.VBA vbKwDim c10doc))).levels
    ∧ (1023 : Int) < (SC_FOLDLEVELBASE : Int) := by
  decide

/-- C6: whenever the lexer reaches a line start while in a single-line
string state it reverts to the default style at that position — the step is
the step of the configuration with the state forced to default — unless the
closeBrace latch is set, in which case the string arm's body continues
processing; and the latch is set exactly when an interpolation hole is
exited via a closing brace: the default-state block at a closing brace
with an exhausted top frame sets closeBrace and restores the saved string
state (LexCSharp.cxx:463-468, 710-719). -/
theorem c6_unterminated_single_line_string (kw : CsKeywordLists) (tm : WordList) (doc : Doc)
    (cfg : CsCfg) (f : InterpolatedStringState) :
    (csIsStringArmState cfg.sc.state = true → IsSingleLineString cfg.sc.state = true →
      atLineStartPos doc cfg.sc.pos = true → cfg.closeBrace = false →
      csStep kw tm doc cfg
        = csStep kw tm doc { cfg with sc := scSetState SCE_CSHARP_DEFAULT cfg.sc })
    ∧ (csIsStringArmState cfg.sc.state = true →
      atLineStartPos doc cfg.sc.pos = true → cfg.closeBrace = true →
      csSwitch kw tm doc cfg = csStringBody doc cfg)
    ∧ (cfg.sc.state = SCE_CSHARP_DEFAULT → cfg.ppKind ≠ PreprocessorKind.Message →
      cfg.nestedState.head? = some f → f.parenCount ≤ 0 → byteAt doc cfg.sc.pos = 125 →
      (csDefaultBlock doc cfg).1.closeBrace = true
        ∧ (csDefaultBlock doc cfg).1.sc.state = f.state
        ∧ (csDefaultBlock doc cfg).2 = true) := by
  refine ⟨?_, ?_, ?_⟩
  · intro hstr hsl hls hcb
    have e1 : csSwitch kw tm doc cfg
        = ({ cfg with sc := scSetState SCE_CSHARP_DEFAULT cfg.sc }, false) := by
      have harm : csArmString doc cfg
          = ({ cfg with sc := scSetState SCE_CSHARP_DEFAULT cfg.sc }, false) := by
        unfold csArmString
        simp [hls, hsl, hcb]
      unfold csSwitch
      simp only [csIsStringArmState, Bool.or_eq_true, beq_iff_eq] at hstr
      rcases hstr with (((((((h|h)|h)|h)|h)|h)|h)|h)|h <;>
      simp [h, csIsStringArmState, harm, SCE_CSHARP_CHARACTER, SCE_CSHARP_STRING,
        SCE_CSHARP_INTERPOLATED_STRING, SCE_CSHARP_VERBATIM_STRING,
        SCE_CSHARP_INTERPOLATED_VERBATIM_STRING, SCE_CSHARP_RAWSTRING_SL,
        SCE_CSHARP_INTERPOLATED_RAWSTRING_SL, SCE_CSHARP_RAWSTRING_ML,
        SCE_CSHARP_INTERPOLATED_RAWSTRING_ML, SCE_CSHARP_OPERATOR, SCE_CSHARP_OPERATOR2,
        SCE_CSHARP_NUMBER, SCE_CSHARP_IDENTIFIER, SCE_CSHARP_PREPROCESSOR,
        SCE_CSHARP_PREPROCESSOR_MESSAGE, SCE_CSHARP_COMMENTLINE, SCE_CSHARP_COMMENTLINEDOC,
        SCE_CSHARP_COMMENTBLOCK, SCE_CSHARP_COMMENTBLOCKDOC, SCE_CSHARP_COMMENTTAG_XML,
        SCE_CSHARP_FORMAT_SPECIFIER, SCE_CSHARP_PLACEHOLDER, SCE_CSHARP_ESCAPECHAR]
    have e2 : csSwitch kw tm doc { cfg with sc := scSetState SCE_CSHARP_DEFAULT cfg.sc }
        = ({ cfg with sc := scSetState SCE_CSHARP_DEFAULT cfg.sc }, false) := by
      unfold csSwitch
      simp [scSetState, csIsStringArmState, SCE_CSHARP_DEFAULT, SCE_CSHARP_OPERATOR,
        SCE_CSHARP_OPERATOR2, SCE_CSHARP_NUMBER, SCE_CSHARP_IDENTIFIER, SCE_CSHARP_PREPROCESSOR,
        SCE_CSHARP_PREPROCESSOR_MESSAGE, SCE_CSHARP_COMMENTLINE, SCE_CSHARP_COMMENTLINEDOC,
        SCE_CSHARP_COMMENTBLOCK, SCE_CSHARP_COMMENTBLOCKDOC, SCE_CSHARP_COMMENTTAG_XML,
        SCE_CSHARP_CHARACTER, SCE_CSHARP_STRING, SCE_CSHARP_INTERPOLATED_STRING,
        SCE_CSHARP_VERBATIM_STRING, SCE_CSHARP_INTERPOLATED_VERBATIM_STRING,
        SCE_CSHARP_RAWSTRING_SL, SCE_CSHARP_INTERPOLATED_RAWSTRING_SL, SCE_CSHARP_RAWSTRING_ML,
        SCE_CSHARP_INTERPOLATED_RAWSTRING_ML, SCE_CSHARP_FORMAT_SPECIFIER,
        SCE_CSHARP_PLACEHOLDER, SCE_CSHARP_ESCAPECHAR]
    unfold csStep
    rw [e1, e2]
  · intro hstr hls hcb
    have harm : csArmString doc cfg = csStringBody doc cfg := by
      unfold csArmString
      simp [hls, hcb]
    unfold csSwitch
    simp only [csIsStringArmState, Bool.or_eq_true, beq_iff_eq] at hstr
    rcases hstr with (((((((h|h)|h)|h)|h)|h)|h)|h)|h <;>
    simp [h, csIsStringArmState, harm, SCE_CSHARP_CHARACTER, SCE_CSHARP_STRING,
      SCE_CSHARP_INTERPOLATED_STRING, SCE_CSHARP_VERBATIM_STRING,
      SCE_CSHARP_INTERPOLATED_VERBATIM_STRING, SCE_CSHARP_RAWSTRING_SL,
      SCE_CSHARP_INTERPOLATED_RAWSTRING_SL, SCE_CSHARP_RAWSTRING_ML,
      SCE_CSHARP_INTERPOLATED_RAWSTRING_ML, SCE_CSHARP_OPERATOR, SCE_CSHARP_OPERATOR2,
      SCE_CSHARP_NUMBER, SCE_CSHARP_IDENTIFIER, SCE_CSHARP_PREPROCESSOR,
      SCE_CSHARP_PREPROCESSOR_MESSAGE, SCE_CSHARP_COMMENTLINE, SCE_CSHARP_COMMENTLINEDOC,
      SCE_CSHARP_COMMENTBLOCK, SCE_CSHARP_COMMENTBLOCKDOC, SCE_CSHARP_COMMENTTAG_XML,
      SCE_CSHARP_FORMAT_SPECIFIER, SCE_CSHARP_PLACEHOLDER, SCE_CSHARP_ESCAPECHAR]
  · intro hst hpp hns hpc hch
    obtain ⟨rest, hns2⟩ : ∃ rest, cfg.nestedState = f :: rest := by
      cases h : cfg.nestedState with
      | nil => rw [h] at hns; simp at hns
      | cons a t =>
        rw [h] at hns
        simp at hns
        exact ⟨t, by rw [hns]⟩
    have hppb : (cfg.ppKind == PreprocessorKind.Message) = false := by
      simp [hpp]
    unfold csDefaultBlock
    simp [hch, hns2, hpc, hppb, IsNumberStart, IsADigit, IsCsIdentifierStart,
      IsIdentifierStartEx, IsIdentifierStart, IsAlpha, IsUpperCase, IsLowerCase,
      IsUnicodeEscape, UnsafeLower, IsAGraphic, IsInterpolatedStringEnd, scSetState,
      scChangeState, isspacechar]

/-- C6 witness: the theorem applied at a concrete single-line-string
configuration (the second line of a document with an unterminated string)
and at a concrete hole-exit configuration. -/
theorem c6_unterminated_single_line_string_witness :
    (csStep csNoKw emptyWL c6doc c6cfg
      = csStep csNoKw emptyWL c6doc { c6cfg with sc := scSetState SCE_CSHARP_DEFAULT c6cfg.sc })
    ∧ ((csDefaultBlock [125] c6cfg2).1.closeBrace = true
      ∧ (csDefaultBlock [125] c6cfg2).1.sc.state = SCE_CSHARP_INTERPOLATED_STRING
      ∧ (csDefaultBlock [125] c6cfg2).2 = true) := by
  refine ⟨?_, ?_⟩
  · exact (c6_unterminated_single_line_string csNoKw emptyWL c6doc c6cfg
      ⟨SCE_CSHARP_INTERPOLATED_STRING, 0, 0, 1⟩).1 (by decide) (by decide) (by decide) (by decide)
  · exact (c6_unterminated_single_line_string csNoKw emptyWL [125] c6cfg2
      ⟨SCE_CSHARP_INTERPOLATED_STRING, 0, 0, 1⟩).2.2 (by decide) (by decide) (by decide)
      (by decide) (by decide)

/-- C9: the pending keyword-classification hint kwType is reset to None by
the bottom-of-loop bookkeeping whenever the line-end store fires
(LexCSharp.cxx:753), so an identifier at the start of a line is classified
with an empty hint.  The closed conjuncts demonstrate the consequence: with
a line break after the keyword class, the identifier `x` is not classified
as a class name, while on a single line it is. -/
theorem c9_kwtype_reset_at_line_end (doc : Doc) (cfg : CsCfg)
    (h : atLineEndPos doc cfg.sc.pos = true) :
    (csBottom doc cfg).kwType = kwtNone
    ∧ styleAt (ColouriseCSharpDoc0 csKwClass emptyWL (str2bytes "class\nx()")).sc.runs 6
        ≠ SCE_CSHARP_CLASS
    ∧ styleAt (ColouriseCSharpDoc0 csKwClass emptyWL (str2bytes "class x()")).sc.runs 6
        = SCE_CSHARP_CLASS := by
  refine ⟨?_, by decide, by decide⟩
  unfold csBottom
  simp only [h, if_true]

/-- C9 witness: the hint left by the keyword class on the first line of
`class` LF `x()` is cleared by the step that crosses the line end. -/
theorem c9_kwtype_reset_at_line_end_witness :
    (csBottom (str2bytes "class\nx()")
      { csInitCfg 5 SCE_CSHARP_DEFAULT with kwType := kwtClass }).kwType = kwtNone := by
  exact (c9_kwtype_reset_at_line_end (str2bytes "class\nx()")
    { csInitCfg 5 SCE_CSHARP_DEFAULT with kwType := kwtClass } (by decide)).1

/-! ### The ColouriseVBDoc run invariant (used by C4 and C8) -/

theorem vbIdTypeCharSkip_inv (lang : Language) (doc : Doc) (cfg : VbCfg)
    (h : vbLexInv cfg) : vbLexInv (vbIdTypeCharSkip lang doc cfg).2 := by
  obtain ⟨h1, h2, h3⟩ := h
  unfold vbIdTypeCharSkip
  split <;> exact ⟨h1, h2, h3⟩

theorem vbIdWordClassify_inv (lang : Language) (kw : VbKeywordLists) (skipType : Bool)
    (s : List Nat) (kwPrev : VbKeywordType) (chNext : Nat) (len : Nat) (cfg : VbCfg)
    (h : vbLexInv cfg) :
    vbLexInv (vbIdWordClassify lang kw skipType s kwPrev chNext len cfg) := by
  obtain ⟨h1, h2, h3⟩ := h
  unfold vbIdWordClassify
  dsimp only
  refine ⟨?_, ?_, ?_⟩
  · simp only [apply_ite VbCfg.nestedState, apply_ite VbCfg.parenCount, ite_self]
    exact h1
  · simp only [apply_ite VbCfg.lineState, ite_self]
    split_ifs <;> first | exact h2 | exact ⟨by decide, by decide⟩
  · simp only [apply_ite VbCfg.lineStates, ite_self]
    exact h3

theorem vbIdWordFinal_inv (kwPrev : VbKeywordType) (chNext : Nat) (len : Nat) (cfg : VbCfg)
    (h : vbLexInv cfg) : vbLexInv (vbIdWordFinal kwPrev chNext len cfg) := by
  obtain ⟨h1, h2, h3⟩ := h
  unfold vbIdWordFinal
  repeat'
    first
      | exact ⟨h1, h2, h3⟩
      | split

theorem vbIdentifierWord_inv (lang : Language) (kw : VbKeywordLists) (doc : Doc)
    (skipType : Bool) (s : List Nat) (len : Nat) (cfg : VbCfg) (h : vbLexInv cfg) :
    vbLexInv (vbIdentifierWord lang kw doc skipType s len cfg).1 := by
  obtain ⟨h1, h2, h3⟩ := h
  unfold vbIdentifierWord
  dsimp only
  split
  · exact ⟨h1, h2, h3⟩
  · split
    · split
      · refine ⟨?_, ?_, ?_⟩ <;>
          (try simp only [apply_ite VbCfg.nestedState, apply_ite VbCfg.parenCount,
            apply_ite VbCfg.lineState, apply_ite VbCfg.lineStates, ite_self]) <;>
          first | exact h1 | exact h2 | exact h3
      · exact ⟨h1, h2, h3⟩
    · split
      · exact ⟨h1, h2, h3⟩
      · exact vbIdWordFinal_inv _ _ _ _
          (vbIdWordClassify_inv lang kw skipType s cfg.kwType
            (scGetLineNextChar doc false cfg.sc) len
            { cfg with kwType := VbKeywordType.None } ⟨h1, h2, h3⟩)

theorem vbArmIdentifier_inv (lang : Language) (kw : VbKeywordLists) (doc : Doc) (cfg : VbCfg)
    (h : vbLexInv cfg) : vbLexInv (vbArmIdentifier lang kw doc cfg).1 := by
  unfold vbArmIdentifier
  dsimp only
  split
  · exact h
  · exact vbIdentifierWord_inv _ _ _ _ _ _ _ (vbIdTypeCharSkip_inv lang doc cfg h)

theorem vbArmOperator_inv (cfg : VbCfg) (h : vbLexInv cfg) :
    vbLexInv (vbArmOperator cfg).1 := h

theorem vbArmNumber_inv (lang : Language) (doc : Doc) (cfg : VbCfg) (h : vbLexInv cfg) :
    vbLexInv (vbArmNumber lang doc cfg).1 := by
  obtain ⟨h1, h2, h3⟩ := h
  unfold vbArmNumber
  dsimp only
  refine ⟨?_, ?_, ?_⟩ <;>
    (try simp only [apply_ite Prod.fst, apply_ite VbCfg.nestedState, apply_ite VbCfg.parenCount,
      apply_ite VbCfg.lineState, apply_ite VbCfg.lineStates, ite_self]) <;>
    first | exact h1 | exact h2 | exact h3

theorem vbArmString_inv (lang : Language) (doc : Doc) (cfg : VbCfg) (h : vbLexInv cfg) :
    vbLexInv (vbArmString lang doc cfg).1 := by
  obtain ⟨h1, h2, h3⟩ := h
  unfold vbArmString
  rcases hE : cfg.nestedState with _ | ⟨hd, tl⟩ <;>
    simp only [hE] at h1 ⊢ <;>
    split_ifs <;>
    refine ⟨?_, ?_, ?_⟩ <;>
    first
      | exact h2
      | simpa using h3
      | (simp_all; omega)
      | simp_all

theorem vbArmComment_inv (lang : Language) (doc : Doc) (cfg : VbCfg) (h : vbLexInv cfg) :
    vbLexInv (vbArmComment lang doc cfg).1 := by
  obtain ⟨h1, h2, h3⟩ := h
  have hb : ∀ x : Nat, x < 16 → x &&& 7 ≤ 4 → (x ||| 8) < 16 ∧ (x ||| 8) &&& 7 ≤ 4 := by decide
  unfold vbArmComment
  dsimp only
  refine ⟨?_, ?_, ?_⟩ <;>
    (try simp only [apply_ite Prod.fst, apply_ite VbCfg.nestedState, apply_ite VbCfg.parenCount,
      apply_ite VbCfg.lineState, apply_ite VbCfg.lineStates, ite_self]) <;>
    first
      | exact h1
      | exact h2
      | exact h3
      | (split_ifs <;>
          first
            | exact h2
            | exact ⟨by decide, by decide⟩
            | exact ⟨(hb _ h2.1 h2.2).1, (hb _ h2.1 h2.2).2⟩)

theorem vbArmFileNumber_inv (doc : Doc) (cfg : VbCfg) (h : vbLexInv cfg) :
    vbLexInv (vbArmFileNumber doc cfg).1 := by
  obtain ⟨h1, h2, h3⟩ := h
  unfold vbArmFileNumber
  dsimp only
  refine ⟨?_, ?_, ?_⟩ <;>
    (try simp only [apply_ite Prod.fst, apply_ite VbCfg.nestedState, apply_ite VbCfg.parenCount,
      apply_ite VbCfg.lineState, apply_ite VbCfg.lineStates, ite_self]) <;>
    first | exact h1 | exact h2 | exact h3

theorem vbArmDate_inv (doc : Doc) (cfg : VbCfg) (h : vbLexInv cfg) :
    vbLexInv (vbArmDate doc cfg).1 := by
  obtain ⟨h1, h2, h3⟩ := h
  unfold vbArmDate
  dsimp only
  refine ⟨?_, ?_, ?_⟩ <;>
    (try simp only [apply_ite Prod.fst, apply_ite VbCfg.nestedState, apply_ite VbCfg.parenCount,
      apply_ite VbCfg.lineState, apply_ite VbCfg.lineStates, ite_self]) <;>
    first | exact h1 | exact h2 | exact h3

theorem vbArmFormatSpecifier_inv (doc : Doc) (cfg : VbCfg) (h : vbLexInv cfg) :
    vbLexInv (vbArmFormatSpecifier doc cfg).1 := by
  obtain ⟨h1, h2, h3⟩ := h
  unfold vbArmFormatSpecifier
  try dsimp only
  refine ⟨?_, ?_, ?_⟩ <;>
    (try simp only [apply_ite Prod.fst, apply_ite VbCfg.nestedState, apply_ite VbCfg.parenCount,
      apply_ite VbCfg.lineState, apply_ite VbCfg.lineStates, ite_self]) <;>
    first | exact h1 | exact h2 | exact h3

theorem vbOperatorChar_inv (doc : Doc) (cfg : VbCfg) (h : vbLexInv cfg) :
    vbLexInv (vbOperatorChar doc cfg).1 := by
  obtain ⟨h1, h2, h3⟩ := h
  unfold vbOperatorChar
  dsimp only
  rcases hE : cfg.nestedState with _ | ⟨hd, tl⟩ <;>
    simp only [hE] at h1 ⊢ <;>
    split_ifs <;>
    refine ⟨?_, h2, h3⟩ <;>
    simp_all only [Bool.and_eq_true, beq_iff_eq, decide_eq_true_eq, List.length_cons,
      List.length_nil, Nat.cast_add, Nat.cast_zero, Nat.cast_one, Nat.cast_ofNat] <;>
    omega

theorem vbDefaultBlock_inv (lang : Language) (doc : Doc) (cfg : VbCfg) (h : vbLexInv cfg) :
    vbLexInv (vbDefaultBlock lang doc cfg).1 := by
  obtain ⟨h1, h2, h3⟩ := h
  unfold vbDefaultBlock
  dsimp only
  repeat'
    first
      | exact ⟨h1, h2, h3⟩
      | (refine ⟨h1, ⟨?_, ?_⟩, h3⟩ <;> (dsimp only; decide))
      | exact vbOperatorChar_inv doc cfg ⟨h1, h2, h3⟩
      | split

theorem vbBottom_inv (doc : Doc) (cfg : VbCfg) (h : vbLexInv cfg) :
    vbLexInv (vbBottom doc cfg) := by
  obtain ⟨h1, h2, h3⟩ := h
  have hb16 : ∀ x : Nat, x < 16 → x &&& 7 ≤ 4 → (x ||| 16) < 32 ∧ (x ||| 16) &&& 7 ≤ 4 := by
    decide
  have hb8 : ∀ x : Nat, x < 32 → (x &&& 8) < 16 ∧ (x &&& 8) &&& 7 ≤ 4 := by decide
  have hls32 : cfg.lineState < 32 := by
    have := h2.1
    omega
  have hpar : (0 : Int) ≤ cfg.parenCount := le_trans (by positivity) h1
  unfold vbBottom
  dsimp only
  refine ⟨?_, ?_, ?_⟩ <;>
    (try simp only [apply_ite VbCfg.nestedState, apply_ite VbCfg.parenCount,
      apply_ite VbCfg.lineState, apply_ite VbCfg.lineStates, ite_self]) <;>
    first
      | exact h1
      | exact h2
      | exact h3
      | (split_ifs <;>
          first
            | exact h1
            | exact h2
            | exact h3
            | exact ⟨(hb8 _ (hb16 cfg.lineState h2.1 h2.2).1).1,
                (hb8 _ (hb16 cfg.lineState h2.1 h2.2).1).2⟩
            | exact ⟨(hb8 _ hls32).1, (hb8 _ hls32).2⟩
            | (intro e he
               rcases List.mem_cons.mp he with he | he
               · subst he
                 first
                   | exact ⟨(hb16 cfg.lineState h2.1 h2.2).1,
                       (hb16 cfg.lineState h2.1 h2.2).2, hpar⟩
                   | exact ⟨hls32, h2.2, hpar⟩
               · exact h3 e he))

theorem vbSwitch_inv (lang : Language) (kw : VbKeywordLists) (doc : Doc) (cfg : VbCfg)
    (h : vbLexInv cfg) : vbLexInv (vbSwitch lang kw doc cfg).1 := by
  unfold vbSwitch
  dsimp only
  split_ifs <;>
    first
      | exact vbArmOperator_inv cfg h
      | exact vbArmIdentifier_inv lang kw doc cfg h
      | exact vbArmNumber_inv lang doc cfg h
      | exact vbArmString_inv lang doc cfg h
      | exact vbArmComment_inv lang doc cfg h
      | exact vbArmFileNumber_inv doc cfg h
      | exact vbArmDate_inv doc cfg h
      | exact vbArmFormatSpecifier_inv doc cfg h

theorem vbStep_inv (lang : Language) (kw : VbKeywordLists) (doc : Doc) (cfg : VbCfg)
    (h : vbLexInv cfg) : vbLexInv (vbStep lang kw doc cfg) := by
  unfold vbStep
  have hsw := vbSwitch_inv lang kw doc cfg h
  rcases hS : vbSwitch lang kw doc cfg with ⟨c1, b⟩
  rw [hS] at hsw
  cases b
  · dsimp only
    have hdb : vbLexInv (if c1.sc.state == SCE_VB_DEFAULT then vbDefaultBlock lang doc c1
        else (c1, false)).1 := by
      split
      · exact vbDefaultBlock_inv lang doc c1 hsw
      · exact hsw
    rcases hD : (if c1.sc.state == SCE_VB_DEFAULT then vbDefaultBlock lang doc c1
        else (c1, false)) with ⟨c2, b2⟩
    rw [hD] at hdb
    cases b2
    · dsimp only
      exact vbBottom_inv doc c2 hdb
    · dsimp only
      exact hdb
  · dsimp only
    exact hsw

theorem vbRun_inv (lang : Language) (kw : VbKeywordLists) (doc : Doc) (fuel : Nat)
    (cfg : VbCfg) (h : vbLexInv cfg) : vbLexInv (vbRun lang kw doc fuel cfg) := by
  induction fuel generalizing cfg with
  | zero => exact h
  | succ n ih =>
    unfold vbRun
    split
    · exact ih (vbStep lang kw doc cfg) (vbStep_inv lang kw doc cfg h)
    · exact h

theorem vbInit_inv (startPos : Nat) : vbLexInv (vbInitCfg startPos 0) := by
  refine ⟨by simp [vbInitCfg], by simp [vbInitCfg, vbLineStateOK], ?_⟩
  intro e he
  simp [vbInitCfg] at he

theorem vbLex_stores_ok (lang : Language) (kw : VbKeywordLists) (doc : Doc) :
    ∀ e ∈ (ColouriseVBDoc0 lang kw doc).lineStates, vbStoreOK e := by
  have h := vbRun_inv lang kw doc (csFuel doc) (vbInitCfg 0 0) (vbInit_inv 0)
  exact fun e he => h.2.2 e he

/-- C8 counterexample: a LangB configuration in the interpolated-string
state with one open hole recorded but an outer paren depth of zero: the
closing brace pops the hole and decrements the counter without a clamp
(LexVB.cxx:287), driving it to -1 instead of keeping it at zero. -/
theorem c8_clamp_counterexample :
    (vbStep Language.VBNET vbNoKw [125, 120]
      { vbInitCfg 0 SCE_VB_INTERPOLATED_STRING with nestedState := [0] }).parenCount = -1 := by
  decide

/-- C8 amended: LangC does clamp: a `)` or `]` in the default state with no
open interpolation frame and a zero counter leaves the counter at zero
(LexCSharp.cxx:704-706).  LangB has no clamp at the `}` hole pop, but from
any configuration satisfying the run invariant (the counter dominates the
number of open holes) one step keeps the counter non-negative, and every
per-line state stored by a full LangB lex packs a non-negative depth. -/
theorem c8_paren_clamp_amended (lang : Language) (kw : VbKeywordLists) (docC docB : Doc)
    (ccfg : CsCfg) (vcfg : VbCfg)
    (hc : ccfg.nestedState = []) (hz : ccfg.parenCount = 0)
    (hb : byteAt docC ccfg.sc.pos = 41 ∨ byteAt docC ccfg.sc.pos = 93)
    (hv : vbLexInv vcfg) :
    (csDefaultBlock docC ccfg).1.parenCount = 0
    ∧ 0 ≤ (vbStep lang kw docB vcfg).parenCount
    ∧ ∀ e ∈ (ColouriseVBDoc0 lang kw docB).lineStates, 0 ≤ e.2.2 := by
  refine ⟨?_, ?_, ?_⟩
  · rcases hb with hb | hb <;>
      (unfold csDefaultBlock
       dsimp only
       simp [hb, hc, hz, IsNumberStart, IsADigit, IsCsIdentifierStart,
         IsIdentifierStartEx, IsIdentifierStart, IsAlpha, IsUpperCase, IsLowerCase,
         IsUnicodeEscape, UnsafeLower, IsAGraphic, IsInterpolatedStringEnd, scSetState,
         scChangeState, isspacechar, apply_ite Prod.fst, apply_ite CsCfg.parenCount, ite_self])
  · have h := (vbStep_inv lang kw docB vcfg hv).1
    have hlen : (0 : Int) ≤ ((vbStep lang kw docB vcfg).nestedState.length : Int) := by
      positivity
    omega
  · intro e he
    exact (vbLex_stores_ok lang kw docB e he).2.2

/-- C8 witness: the amended theorem applied to a single `)` document for
LangC and the initial LangB configuration. -/
theorem c8_paren_clamp_amended_witness :
    byteAt [41] 0 = 41 ∧ vbLexInv (vbInitCfg 0 0)
    ∧ ((csDefaultBlock [41] (csInitCfg 0 SCE_CSHARP_DEFAULT)).1.parenCount = 0
      ∧ 0 ≤ (vbStep Language.VBNET vbNoKw [41] (vbInitCfg 0 0)).parenCount
      ∧ ∀ e ∈ (ColouriseVBDoc0 Language.VBNET vbNoKw [41]).lineStates, 0 ≤ e.2.2) :=
  ⟨rfl, vbInit_inv 0,
    c8_paren_clamp_amended Language.VBNET vbNoKw [41] [41]
      (csInitCfg 0 SCE_CSHARP_DEFAULT) (vbInitCfg 0 0) rfl rfl (Or.inl rfl) (vbInit_inv 0)⟩

/-- C4 amended: the line-type value needs bits 0-2, not 0-1 (the VB6 Type
line stores 4).  Every per-line record of a full LangB lex has a line-type
of at most 4 in bits 0-2, the continuation flag in bit 3 and the
interpolation flag in bit 4 (the stored low half decomposes exactly into
those fields), a non-negative paren depth, and the packed 32-bit value is
the sum `lineState + 65536 * parenCount`, so the depth occupies bits 16
and up. -/
theorem c4_linestate_packing_amended (lang : Language) (kw : VbKeywordLists) (doc : Doc) :
    ∀ e ∈ (ColouriseVBDoc0 lang kw doc).lineStates,
      (e.2.1 &&& 7) ≤ 4
      ∧ e.2.1 = (e.2.1 &&& 7) + 8 * ((e.2.1 >>> 3) &&& 1) + 16 * ((e.2.1 >>> 4) &&& 1)
      ∧ 0 ≤ e.2.2
      ∧ vbPackLineState e.2.1 e.2.2.toNat = e.2.1 + 65536 * e.2.2.toNat := by
  intro e he
  obtain ⟨hlt, hty, hp⟩ := vbLex_stores_ok lang kw doc e he
  have hdec : ∀ x : Nat, x < 32 →
      x = (x &&& 7) + 8 * ((x >>> 3) &&& 1) + 16 * ((x >>> 4) &&& 1) := by decide
  refine ⟨hty, hdec _ hlt, hp, ?_⟩
  rw [vbPackLineState_eq_add _ _ (by omega)]
  ring

/-- C4 witness: the amended theorem applied to the stored record of the
line `Type T`. -/
theorem c4_linestate_packing_amended_witness :
    ((0 : Nat), VBLineType_VB6TypeLine, (0 : Int))
        ∈ (ColouriseVBDoc0 Language.VBA vbKwType c4doc).lineStates
    ∧ ((VBLineType_VB6TypeLine &&& 7) ≤ 4
      ∧ VBLineType_VB6TypeLine = (VBLineType_VB6TypeLine &&& 7)
          + 8 * ((VBLineType_VB6TypeLine >>> 3) &&& 1)
          + 16 * ((VBLineType_VB6TypeLine >>> 4) &&& 1)
      ∧ (0 : Int) ≤ (0 : Int)
      ∧ vbPackLineState VBLineType_VB6TypeLine (Int.toNat 0)
          = VBLineType_VB6TypeLine + 65536 * Int.toNat 0) :=
  ⟨by decide, c4_linestate_packing_amended Language.VBA vbKwType c4doc
    (0, VBLineType_VB6TypeLine, 0) (by decide)⟩

/-- C7: the If/Then pair of a single-line If contributes a net fold-level
change of zero.  (a) A keyword-styled `if` (no other keyword of the chain
matching, no pending End) raises levelNext by one and sets bit 0 of the
mask (LexVB.cxx:559-562).  (b) A keyword-styled `then` seen mid-line with
bit 0 of the mask set, whose line continues with a byte other than CR, LF
or an apostrophe, lowers levelNext by one and sets bit 1
(LexVB.cxx:563-573).  (c) End to end, folding `If a Then b Else c` stores
the single level record (0, base, base, no header): the line opens no fold
region. -/
theorem c7_single_line_if_then (doc : Doc) (runs : List StyleRun) (endPos i j : Nat)
    (cfg cfg2 : VbFoldCfg) :
    (MatchLowerCase doc i (str2bytes "if") = true →
      MatchLowerCase doc i (str2bytes "for") = false →
      MatchLowerCase doc i (str2bytes "do") = false →
      MatchLowerCase doc i (str2bytes "while") = false →
      MatchLowerCase doc i (str2bytes "try") = false →
      MatchLowerCase doc i (str2bytes "select") = false →
      MatchLowerCase doc i (str2bytes "with") = false →
      MatchLowerCase doc i (str2bytes "namespace") = false →
      MatchLowerCase doc i (str2bytes "synclock") = false →
      MatchLowerCase doc i (str2bytes "using") = false →
      MatchLowerCase doc i (str2bytes "set") = false →
      MatchLowerCase doc i (str2bytes "get") = false →
      MatchLowerCase doc i (str2bytes "raiseevent") = false →
      MatchLowerCase doc i (str2bytes "addhandler") = false →
      MatchLowerCase doc i (str2bytes "removehandler") = false →
      MatchLowerCase doc i (str2bytes "next") = false →
      MatchLowerCase doc i (str2bytes "loop") = false →
      MatchLowerCase doc i (str2bytes "wend") = false →
      MatchLowerCase doc i (str2bytes "exit") = false →
      MatchLowerCase doc i (str2bytes "begin") = false →
      MatchLowerCase doc i (str2bytes "end") = false →
      cfg.isEnd = false →
      vbFoldKeyword doc runs endPos i cfg
        = { cfg with ifThenMask := 1, levelNext := cfg.levelNext + 1 })
    ∧ (MatchLowerCase doc j (str2bytes "then") = true →
      (cfg2.visibleChars == 0) = false →
      MatchLowerCase doc j (str2bytes "exit") = false →
      MatchLowerCase doc j (str2bytes "begin") = false →
      MatchLowerCase doc j (str2bytes "end") = false →
      MatchLowerCase doc j (str2bytes "if") = false →
      (cfg2.ifThenMask &&& 1 != 0) = true →
      ((byteAt doc (LexSkipSpaceTab doc (j + 4) endPos) == 13
        || byteAt doc (LexSkipSpaceTab doc (j + 4) endPos) == 10
        || byteAt doc (LexSkipSpaceTab doc (j + 4) endPos) == 39)) = false →
      vbFoldKeyword doc runs endPos j cfg2
        = { cfg2 with ifThenMask := cfg2.ifThenMask ||| 2,
                      levelNext := cfg2.levelNext - 1 })
    ∧ (FoldVBDoc0 c7doc (ColouriseVBDoc0 Language.VBNET vbKwIfThen c7doc).sc.runs
        (vbGetLS (ColouriseVBDoc0 Language.VBNET vbKwIfThen c7doc))).levels
      = [(0, 1024, 1024, false)] := by
  refine ⟨?_, ?_, ?_⟩
  · intro hif hfor hdo hwhile htry hselect hwith hns hsl husing hset hget hre hah hrh
      hnext hloop hwend hexit hbegin hendw hisEnd
    unfold vbFoldKeyword
    dsimp only
    simp [hif, hfor, hdo, hwhile, htry, hselect, hwith, hns, hsl, husing, hset, hget,
      hre, hah, hrh, hnext, hloop, hwend, hexit, hbegin, hendw, hisEnd]
  · intro hthen hvc hexit hbegin hendw hif hmask hch
    have hm2 : ¬(cfg2.ifThenMask % 2 = 0) := by
      simp only [Nat.and_one_is_mod, ne_eq, bne_iff_ne] at hmask
      omega
    unfold vbFoldKeyword
    dsimp only
    simp [hthen, hvc, hexit, hbegin, hendw, hif, hmask, hch, hm2]
  · decide

/-- C7 witness: the theorem applied at the If (position 0) and the Then
(position 5) of `If a Then b Else c`, with the lookahead after Then being
the byte `b`. -/
theorem c7_single_line_if_then_witness :
    (vbFoldKeyword c7doc [] 18 0 c7cfgA
      = { c7cfgA with ifThenMask := 1, levelNext := c7cfgA.levelNext + 1 })
    ∧ (vbFoldKeyword c7doc [] 18 5 c7cfgB
      = { c7cfgB with ifThenMask := c7cfgB.ifThenMask ||| 2,
                      levelNext := c7cfgB.levelNext - 1 }) := by
  refine ⟨?_, ?_⟩
  · exact (c7_single_line_if_then c7doc [] 18 0 5 c7cfgA c7cfgB).1
      (by decide) (by decide) (by decide) (by decide) (by decide) (by decide) (by decide)
      (by decide) (by decide) (by decide) (by decide) (by decide) (by decide) (by decide)
      (by decide) (by decide) (by decide) (by decide) (by decide) (by decide) (by decide)
      (by decide)
  · exact (c7_single_line_if_then c7doc [] 18 0 5 c7cfgA c7cfgB).2.1
      (by decide) (by decide) (by decide) (by decide) (by decide) (by decide) (by decide)
      (by decide)

/-- C5 amended: file-number scanning is not restricted to column 0.  In the
default state a `#` that does not start the preprocessor/identifier form
enters the file-number state with a zeroed digit counter at any column
(LexVB.cxx:362-368); in that state a digit increments the counter, keeping
the file-number style while at most 3 digits have been seen and retagging
the run as a date on the 4th (LexVB.cxx:317-323); a comma, CR or LF ends
the run restyled as a number (LexVB.cxx:324-327); any other byte retags the
run as a date and re-dispatches (LexVB.cxx:328-331). -/
theorem c5_file_number_amended (lang : Language) (doc : Doc) (cfg dcfg : VbCfg) :
    (byteAt doc dcfg.sc.pos = 35 →
      (dcfg.visibleChars == 0 && decide (lang ≠ Language.VBScript)
        && IsUpperOrLowerCase (byteAt doc (dcfg.sc.pos + 1))) = false →
      vbDefaultBlock lang doc dcfg
        = ({ dcfg with fileNbDigits := 0, sc := scSetState SCE_VB_FILENUMBER dcfg.sc }, false))
    ∧ (IsADigit (byteAt doc cfg.sc.pos) = true → ¬(3 < cfg.fileNbDigits + 1) →
      vbArmFileNumber doc cfg = ({ cfg with fileNbDigits := cfg.fileNbDigits + 1 }, false))
    ∧ (IsADigit (byteAt doc cfg.sc.pos) = true → 3 < cfg.fileNbDigits + 1 →
      vbArmFileNumber doc cfg
        = ({ cfg with fileNbDigits := cfg.fileNbDigits + 1,
                      sc := scChangeState SCE_VB_DATE cfg.sc }, false))
    ∧ (IsADigit (byteAt doc cfg.sc.pos) = false →
      (byteAt doc cfg.sc.pos == 13 || byteAt doc cfg.sc.pos == 10
        || byteAt doc cfg.sc.pos == 44) = true →
      vbArmFileNumber doc cfg
        = ({ cfg with sc := scSetState SCE_VB_DEFAULT (scChangeState SCE_VB_NUMBER cfg.sc) },
          false))
    ∧ (IsADigit (byteAt doc cfg.sc.pos) = false →
      (byteAt doc cfg.sc.pos == 13 || byteAt doc cfg.sc.pos == 10
        || byteAt doc cfg.sc.pos == 44) = false →
      vbArmFileNumber doc cfg = ({ cfg with sc := scChangeState SCE_VB_DATE cfg.sc }, true)) := by
  refine ⟨?_, ?_, ?_, ?_, ?_⟩
  · intro hb hident
    unfold vbDefaultBlock
    dsimp only
    simp only [hb, hident]
    simp
  · intro hd hcnt
    unfold vbArmFileNumber
    dsimp only
    simp [hd, hcnt]
  · intro hd hcnt
    unfold vbArmFileNumber
    dsimp only
    simp [hd, hcnt]
  · intro hd hcomma
    unfold vbArmFileNumber
    dsimp only
    simp [hd, hcomma]
  · intro hd hcomma
    unfold vbArmFileNumber
    dsimp only
    simp [hd, hcomma]

/-- C5 witness: the amended theorem applied inside `x #27, Oct, 2003#`: the
hash at column 2 enters file-number scanning, the digits at columns 3-4
keep it, and the comma at column 5 ends the run as a number; the `O` at
column 7 in the file-number state would retag as a date. -/
theorem c5_file_number_amended_witness :
    (vbDefaultBlock Language.VBA c5doc { vbInitCfg 2 SCE_VB_DEFAULT with visibleChars := 1 }
      = ({ { vbInitCfg 2 SCE_VB_DEFAULT with visibleChars := 1 } with
              fileNbDigits := 0,
              sc := scSetState SCE_VB_FILENUMBER
                { vbInitCfg 2 SCE_VB_DEFAULT with visibleChars := 1 }.sc }, false))
    ∧ (vbArmFileNumber c5doc (vbInitCfg 3 SCE_VB_FILENUMBER)
      = ({ vbInitCfg 3 SCE_VB_FILENUMBER with fileNbDigits := 1 }, false))
    ∧ (vbArmFileNumber c5doc (vbInitCfg 5 SCE_VB_FILENUMBER)
      = ({ vbInitCfg 5 SCE_VB_FILENUMBER with
              sc := scSetState SCE_VB_DEFAULT
                (scChangeState SCE_VB_NUMBER (vbInitCfg 5 SCE_VB_FILENUMBER).sc) }, false))
    ∧ (vbArmFileNumber c5doc (vbInitCfg 7 SCE_VB_FILENUMBER)
      = ({ vbInitCfg 7 SCE_VB_FILENUMBER with
              sc := scChangeState SCE_VB_DATE (vbInitCfg 7 SCE_VB_FILENUMBER).sc }, true)) := by
  refine ⟨?_, ?_, ?_, ?_⟩
  · exact (c5_file_number_amended Language.VBA c5doc (vbInitCfg 0 0)
      { vbInitCfg 2 SCE_VB_DEFAULT with visibleChars := 1 }).1 (by decide) (by decide)
  · exact (c5_file_number_amended Language.VBA c5doc (vbInitCfg 3 SCE_VB_FILENUMBER)
      (vbInitCfg 0 0)).2.1 (by decide) (by decide)
  · exact (c5_file_number_amended Language.VBA c5doc (vbInitCfg 5 SCE_VB_FILENUMBER)
      (vbInitCfg 0 0)).2.2.2.1 (by decide) (by decide)
  · exact (c5_file_number_amended Language.VBA c5doc (vbInitCfg 7 SCE_VB_FILENUMBER)
      (vbInitCfg 0 0)).2.2.2.2 (by decide) (by decide)

/-- C2 amended: in a raw string (single- or multi-line, interpolated or
not: any state that is neither plain nor verbatim), a quote is literal -
the state and both counters are kept and exactly one byte is consumed -
unless the closing guard holds at that quote: the next two bytes are also
quotes, the pending run completes exactly the opening delimiter count, and
the run begins the line's visible content or the string is single-line
(LexCSharp.cxx:486-495).  At the first quote satisfying the guard the
string ends: the cursor jumps past the delimiter quotes into the default
state (LexCSharp.cxx:497-507).  So shorter runs are literal, a longer run
closes the string on its last delimiterCount quotes (`"""a""""b` ends
inside the 4-run, `b` is an identifier), and a mid-line exact run in a
multi-line raw string stays literal (`"""` LF `a"""b` stays in the
string). -/
theorem c2_raw_delimiter_amended (doc : Doc) (cfg : CsCfg)
    (hpl : IsPlainString cfg.sc.state = false)
    (hvb : IsVerbatimString cfg.sc.state = false)
    (hch : (cfg.sc.state == SCE_CSHARP_CHARACTER) = false)
    (hb : byteAt doc cfg.sc.pos = 34) :
    ((scMatch2 doc 34 34 (scForward cfg.sc) = false
      ∨ (cfg.visibleChars == 0 || IsSingleLineString cfg.sc.state) = false
      ∨ GetMatchedDelimiterCount doc ((scForward cfg.sc).pos + 1) 34 + 2
          ≠ cfg.stringDelimiterCount) →
      csStringBody doc cfg = ({ cfg with sc := scForward cfg.sc }, true))
    ∧ (scMatch2 doc 34 34 (scForward cfg.sc) = true →
      (cfg.visibleChars == 0 || IsSingleLineString cfg.sc.state) = true →
      GetMatchedDelimiterCount doc ((scForward cfg.sc).pos + 1) 34 + 2
        = cfg.stringDelimiterCount →
      cfg.nestedState = [] →
      (byteAt doc
          ((scAdvance ((cfg.stringDelimiterCount : Int) - 1) (scForward cfg.sc)).pos + 1) == 56
        && UnsafeLower (byteAt doc
          (scAdvance ((cfg.stringDelimiterCount : Int) - 1) (scForward cfg.sc)).pos) == 117)
        = false →
      csStringBody doc cfg
        = ({ cfg with
              sc := scSetState SCE_CSHARP_DEFAULT
                (scAdvance ((cfg.stringDelimiterCount : Int) - 1) (scForward cfg.sc)),
              stringDelimiterCount := 0, stringInterpolatorCount := 0 }, false))
    ∧ (styleAt (ColouriseCSharpDoc0 csNoKw emptyWL c2doc2).sc.runs 4 = SCE_CSHARP_RAWSTRING_SL
      ∧ styleAt (ColouriseCSharpDoc0 csNoKw emptyWL c2doc2).sc.runs 5 = SCE_CSHARP_RAWSTRING_SL
      ∧ styleAt (ColouriseCSharpDoc0 csNoKw emptyWL c2doc2).sc.runs 10
        = SCE_CSHARP_IDENTIFIER
      ∧ (ColouriseCSharpDoc0 csNoKw emptyWL c2doc3).sc.state = SCE_CSHARP_RAWSTRING_ML
      ∧ styleAt (scComplete (ColouriseCSharpDoc0 csNoKw emptyWL c2doc3).sc).runs 8
        = SCE_CSHARP_RAWSTRING_ML) := by
  refine ⟨?_, ?_, ?_⟩
  · intro hlit
    unfold csStringBody
    dsimp only
    rcases hlit with hl | hl | hl <;>
      cases hm : scMatch2 doc 34 34 (scForward cfg.sc) <;>
        cases hg : (cfg.visibleChars == 0 || IsSingleLineString cfg.sc.state) <;>
          first
            | (rw [hl] at hm
               exact Bool.noConfusion hm)
            | (rw [hl] at hg
               exact Bool.noConfusion hg)
            | simp [hb, hpl, hvb, hch, hl, hm, hg]
    all_goals simpa using hch
  · intro hm hg heq hns hu8
    unfold csStringBody
    dsimp only
    simp [hb, hpl, hvb, hch, hm, hg, heq, hns, hu8]
    intro h
    exact absurd h (by simpa using hch)
  · decide

/-- C2 witness: inside the 4-quote run of `"""a""""b` at position 4 the
tail run gives count 4 ≠ 3, so the quote is literal and the cursor moves
one byte; at position 5 the tail run gives exactly 3, so the string closes
with the cursor moved past the three quotes into the default state; and in
the multi-line raw string of `"""` LF `a"""b`, the mid-line quote at
position 5 is literal although its run is exactly 3, because the line
already has visible content. -/
theorem c2_raw_delimiter_amended_witness :
    (csStringBody c2doc { csInitCfg 4 SCE_CSHARP_RAWSTRING_SL with stringDelimiterCount := 3 }
      = ({ { csInitCfg 4 SCE_CSHARP_RAWSTRING_SL with stringDelimiterCount := 3 } with
            sc := scForward { csInitCfg 4 SCE_CSHARP_RAWSTRING_SL with
              stringDelimiterCount := 3 }.sc }, true))
    ∧ (csStringBody c2doc { csInitCfg 5 SCE_CSHARP_RAWSTRING_SL with stringDelimiterCount := 3 }
      = ({ { csInitCfg 5 SCE_CSHARP_RAWSTRING_SL with stringDelimiterCount := 3 } with
            sc := scSetState SCE_CSHARP_DEFAULT (scAdvance ((3 : Int) - 1)
              (scForward { csInitCfg 5 SCE_CSHARP_RAWSTRING_SL with
                stringDelimiterCount := 3 }.sc)),
            stringDelimiterCount := 0, stringInterpolatorCount := 0 }, false))
    ∧ (csStringBody c2doc3 { csInitCfg 5 SCE_CSHARP_RAWSTRING_ML with
        stringDelimiterCount := 3, visibleChars := 1 }
      = ({ { csInitCfg 5 SCE_CSHARP_RAWSTRING_ML with
              stringDelimiterCount := 3, visibleChars := 1 } with
            sc := scForward { csInitCfg 5 SCE_CSHARP_RAWSTRING_ML with
              stringDelimiterCount := 3, visibleChars := 1 }.sc }, true)) := by
  refine ⟨?_, ?_, ?_⟩
  · exact (c2_raw_delimiter_amended c2doc
      { csInitCfg 4 SCE_CSHARP_RAWSTRING_SL with stringDelimiterCount := 3 }
      (by decide) (by decide) (by decide) (by decide)).1 (by decide)
  · exact (c2_raw_delimiter_amended c2doc
      { csInitCfg 5 SCE_CSHARP_RAWSTRING_SL with stringDelimiterCount := 3 }
      (by decide) (by decide) (by decide) (by decide)).2.1
      (by decide) (by decide) (by decide) (by decide) (by decide)
  · exact (c2_raw_delimiter_amended c2doc3
      { csInitCfg 5 SCE_CSHARP_RAWSTRING_ML with stringDelimiterCount := 3, visibleChars := 1 }
      (by decide) (by decide) (by decide) (by decide)).1 (by decide)

theorem csFoldLevelPhase_fields (doc : Doc) (runs : List StyleRun) (cfg : CsFoldCfg) :
    (csFoldLevelPhase doc runs cfg).levelCurrent = cfg.levelCurrent
    ∧ (csFoldLevelPhase doc runs cfg).foldPrevLC = cfg.foldPrevLC
    ∧ (csFoldLevelPhase doc runs cfg).foldPrevUN = cfg.foldPrevUN
    ∧ (csFoldLevelPhase doc runs cfg).foldCurLC = cfg.foldCurLC
    ∧ (csFoldLevelPhase doc runs cfg).foldCurUN = cfg.foldCurUN
    ∧ (csFoldLevelPhase doc runs cfg).levels = cfg.levels
    ∧ (csFoldLevelPhase doc runs cfg).lineCurrent = cfg.lineCurrent
    ∧ (csFoldLevelPhase doc runs cfg).lineStartNext = cfg.lineStartNext
    ∧ (csFoldLevelPhase doc runs cfg).pos = cfg.pos := by
  unfold csFoldLevelPhase
  dsimp only
  refine ⟨?_, ?_, ?_, ?_, ?_, ?_, ?_, ?_, ?_⟩ <;>
    (try simp only [apply_ite CsFoldCfg.levelCurrent, apply_ite CsFoldCfg.foldPrevLC,
      apply_ite CsFoldCfg.foldPrevUN, apply_ite CsFoldCfg.foldCurLC,
      apply_ite CsFoldCfg.foldCurUN, apply_ite CsFoldCfg.levels,
      apply_ite CsFoldCfg.lineCurrent, apply_ite CsFoldCfg.lineStartNext,
      apply_ite CsFoldCfg.pos, ite_self])

theorem vbFoldKeyword_fields (doc : Doc) (runs : List StyleRun) (endPos i : Nat)
    (cfg : VbFoldCfg) :
    (vbFoldKeyword doc runs endPos i cfg).levelCurrent = cfg.levelCurrent
    ∧ (vbFoldKeyword doc runs endPos i cfg).levels = cfg.levels
    ∧ (vbFoldKeyword doc runs endPos i cfg).lineCurrent = cfg.lineCurrent
    ∧ (vbFoldKeyword doc runs endPos i cfg).lineStartNext = cfg.lineStartNext
    ∧ (vbFoldKeyword doc runs endPos i cfg).pos = cfg.pos := by
  unfold vbFoldKeyword
  dsimp only
  refine ⟨?_, ?_, ?_, ?_, ?_⟩ <;>
    (try simp only [apply_ite VbFoldCfg.levelCurrent, apply_ite VbFoldCfg.levels,
      apply_ite VbFoldCfg.lineCurrent, apply_ite VbFoldCfg.lineStartNext,
      apply_ite VbFoldCfg.pos, ite_self])

theorem vbFoldLinePhase_fields (doc : Doc) (runs : List StyleRun) (endPos : Nat)
    (cfg : VbFoldCfg) :
    (vbFoldLinePhase doc runs endPos cfg).levelCurrent = cfg.levelCurrent
    ∧ (vbFoldLinePhase doc runs endPos cfg).levels = cfg.levels
    ∧ (vbFoldLinePhase doc runs endPos cfg).lineCurrent = cfg.lineCurrent
    ∧ (vbFoldLinePhase doc runs endPos cfg).lineStartNext = cfg.lineStartNext
    ∧ (vbFoldLinePhase doc runs endPos cfg).pos = cfg.pos := by
  obtain ⟨k1, k2, k3, k4, k5⟩ := vbFoldKeyword_fields doc runs endPos cfg.pos cfg
  unfold vbFoldLinePhase
  dsimp only
  refine ⟨?_, ?_, ?_, ?_, ?_⟩ <;>
    (try simp only [apply_ite VbFoldCfg.levelCurrent, apply_ite VbFoldCfg.levels,
      apply_ite VbFoldCfg.lineCurrent, apply_ite VbFoldCfg.lineStartNext,
      apply_ite VbFoldCfg.pos, k1, k2, k3, k4, k5, ite_self])

theorem csFoldStep_inv (doc : Doc) (runs : List StyleRun) (getLS : Nat → Nat) (endPos : Nat)
    (cfg : CsFoldCfg) (h : csFoldInv cfg) : csFoldInv (csFoldStep doc runs getLS endPos cfg) := by
  obtain ⟨h1, h2, h3, h4, h5, h6⟩ := h
  obtain ⟨f1, f2, f3, f4, f5, f6, f7, f8, f9⟩ := csFoldLevelPhase_fields doc runs cfg
  unfold csFoldStep
  dsimp only
  set C := csFoldLevelPhase doc runs cfg with hC
  have hmax : (SC_FOLDLEVELBASE : Int) ≤ max C.levelNext (SC_FOLDLEVELBASE : Int) :=
    le_max_right _ _
  have hlc : getLS (C.lineCurrent + 1) &&& 1 ≤ 1 := Nat.and_le_right
  have hun : (getLS (C.lineCurrent + 1) >>> 1) &&& 1 ≤ 1 := Nat.and_le_right
  split
  · refine ⟨?_, ?_, ?_, ?_, ?_, ?_⟩
    · dsimp only
      simp only [apply_ite Prod.fst]
      split_ifs <;> omega
    · dsimp only
      omega
    · dsimp only
      omega
    · dsimp only
      exact hlc
    · dsimp only
      exact hun
    · dsimp only
      intro e he
      rcases List.mem_cons.mp he with he | he
      · subst he
        refine ⟨?_, ?_⟩
        · dsimp only
          omega
        · dsimp only
          simp only [apply_ite Prod.fst]
          split_ifs <;> omega
      · rw [f6] at he
        exact h6 e he
  · refine ⟨?_, ?_, ?_, ?_, ?_, ?_⟩ <;> dsimp only <;>
      first
        | omega
        | (intro e he
           rw [f6] at he
           exact h6 e he)

theorem vbFoldStep_inv (doc : Doc) (runs : List StyleRun) (getLS : Nat → Nat) (endPos : Nat)
    (cfg : VbFoldCfg) (h : vbFoldInv cfg) : vbFoldInv (vbFoldStep doc runs getLS endPos cfg) := by
  obtain ⟨h1, h2⟩ := h
  obtain ⟨f1, f2, f3, f4, f5⟩ := vbFoldLinePhase_fields doc runs endPos cfg
  unfold vbFoldStep
  dsimp only
  set C := vbFoldLinePhase doc runs endPos cfg with hC
  have hmax : (SC_FOLDLEVELBASE : Int) ≤ max C.levelNext (SC_FOLDLEVELBASE : Int) :=
    le_max_right _ _
  split
  · refine ⟨?_, ?_⟩
    · dsimp only
      split_ifs <;> omega
    · dsimp only
      intro e he
      rcases List.mem_cons.mp he with he | he
      · subst he
        refine ⟨?_, ?_⟩
        · dsimp only
          omega
        · dsimp only
          split_ifs <;> omega
      · rw [f2] at he
        exact h2 e he
  · refine ⟨?_, ?_⟩
    · dsimp only
      omega
    · dsimp only
      intro e he
      rw [f2] at he
      exact h2 e he

theorem csFoldRun_inv (doc : Doc) (runs : List StyleRun) (getLS : Nat → Nat) (endPos : Nat)
    (fuel : Nat) (cfg : CsFoldCfg) (h : csFoldInv cfg) :
    csFoldInv (csFoldRun doc runs getLS endPos fuel cfg) := by
  induction fuel generalizing cfg with
  | zero => exact h
  | succ n ih =>
    unfold csFoldRun
    split
    · exact ih (csFoldStep doc runs getLS endPos cfg)
        (csFoldStep_inv doc runs getLS endPos cfg h)
    · exact h

theorem vbFoldRun_inv (doc : Doc) (runs : List StyleRun) (getLS : Nat → Nat) (endPos : Nat)
    (fuel : Nat) (cfg : VbFoldCfg) (h : vbFoldInv cfg) :
    vbFoldInv (vbFoldRun doc runs getLS endPos fuel cfg) := by
  induction fuel generalizing cfg with
  | zero => exact h
  | succ n ih =>
    unfold vbFoldRun
    split
    · exact ih (vbFoldStep doc runs getLS endPos cfg)
        (vbFoldStep_inv doc runs getLS endPos cfg h)
    · exact h

/-- C10 amended: the clamp `max(levelNext, SC_FOLDLEVELBASE)` runs before
the per-line adjustments (the comment/using delta in LangC, the soft-group
line-type delta in LangB, each at least -1), so the stored halves can reach
SC_FOLDLEVELBASE - 1 — not SC_FOLDLEVELBASE as claimed — and never drop
further: for every line of every input both stored halves are at least
SC_FOLDLEVELBASE - 1. -/
theorem c10_fold_level_amended (docC docB : Doc) (runsC runsB : List StyleRun)
    (getLSC getLSB : Nat → Nat) :
    (∀ e ∈ (FoldCSharpDoc0 docC runsC getLSC).levels,
      (SC_FOLDLEVELBASE : Int) - 1 ≤ e.2.1 ∧ (SC_FOLDLEVELBASE : Int) - 1 ≤ e.2.2.1)
    ∧ (∀ e ∈ (FoldVBDoc0 docB runsB getLSB).levels,
      (SC_FOLDLEVELBASE : Int) - 1 ≤ e.2.1 ∧ (SC_FOLDLEVELBASE : Int) - 1 ≤ e.2.2.1) := by
  constructor
  · intro e he
    refine (csFoldRun_inv docC runsC getLSC docC.length (csFuel docC) _
      ⟨?_, ?_, ?_, ?_, ?_, ?_⟩).2.2.2.2.2 e he
    · dsimp only
      omega
    · dsimp only
      omega
    · dsimp only
      omega
    · dsimp only
      exact Nat.and_le_right
    · dsimp only
      exact Nat.and_le_right
    · dsimp only
      intro x hx
      simp at hx
  · intro e he
    refine (vbFoldRun_inv docB runsB getLSB docB.length (csFuel docB) _
      ⟨?_, ?_⟩).2 e he
    · dsimp only
      omega
    · dsimp only
      intro x hx
      simp at hx

/-- C10 witness: the amended bounds at the stored records of a LangC fold
of `a}` LF `b` (with no style runs) and of the LangB fold of the C10
document, including the line whose stored next-level half is
SC_FOLDLEVELBASE - 1. -/
theorem c10_fold_level_amended_witness :
    ((0 : Nat), (1024 : Int), (1024 : Int), false)
        ∈ (FoldCSharpDoc0 (str2bytes "a\x7d\nb") [] (fun _ => 0)).levels
    ∧ ((SC_FOLDLEVELBASE : Int) - 1 ≤ (1024 : Int)
      ∧ (SC_FOLDLEVELBASE : Int) - 1 ≤ (1024 : Int))
    ∧ ((2 : Nat), (1024 : Int), (1023 : Int), false)
        ∈ (FoldVBDoc0 c10doc (ColouriseVBDoc0 Language.VBA vbKwDim c10doc).sc.runs
            (vbGetLS (ColouriseVBDoc0 Language.VBA vbKwDim c10doc))).levels
    ∧ ((SC_FOLDLEVELBASE : Int) - 1 ≤ (1024 : Int)
      ∧ (SC_FOLDLEVELBASE : Int) - 1 ≤ (1023 : Int)) := by
  refine ⟨by decide, ?_, by decide, ?_⟩
  · exact (c10_fold_level_amended (str2bytes "a\x7d\nb") c10doc [] [] (fun _ => 0) (fun _ => 0)).1
      (0, 1024, 1024, false) (by decide)
  · exact (c10_fold_level_amended c10doc c10doc []
      (ColouriseVBDoc0 Language.VBA vbKwDim c10doc).sc.runs (fun _ => 0)
      (vbGetLS (ColouriseVBDoc0 Language.VBA vbKwDim c10doc))).2
      (2, 1024, 1023, false) (by decide)

end Notepad4
